import Mathlib

/-!
RDMA resource decoding: connection-manager ids and completion queues.

A shallow embedding of `rdma/res-cmid.c` and `rdma/res-cq.c`.

* Machine integers are natural numbers; attribute payloads are byte lists.
* Output is a trace of printer calls (`Out`), threaded through a `World`
  together with the list of process-name lookups that were made.
* Code that lives outside the analysed sources (libmnl, libc, the filter engine
  of `rdma/utils.c`, the shared printers of `rdma/res.c`) is represented by its
  observable result: a parse outcome stored in the message, a decision function
  stored in `rd`, a lookup function stored in `Ext`, or a recorded call.
-/

namespace Rdma

/-! ## Constants of the surrounding headers -/

/-- libmnl callback result: failure. -/
def MNL_CB_ERROR : Int := -1

/-- libmnl callback result: stop. -/
def MNL_CB_STOP : Int := 0

/-- libmnl callback result: success. -/
def MNL_CB_OK : Int := 1

/-- The errno value EINVAL. -/
def EINVAL : Int := 22

/-- Address family of IPv4 socket addresses. -/
def AF_INET : Nat := 2

/-- Address family of IPv6 socket addresses. -/
def AF_INET6 : Nat := 10

/-- Size of a buffer that holds any textual IPv6 address with its NUL. -/
def INET6_ADDRSTRLEN : Nat := 46

/-- Port space IPoIB (enum rdma_port_space). -/
def RDMA_PS_IPOIB : Nat := 0x0002

/-- Port space TCP (enum rdma_port_space). -/
def RDMA_PS_TCP : Nat := 0x0106

/-- Port space UDP (enum rdma_port_space). -/
def RDMA_PS_UDP : Nat := 0x0111

/-- Port space IB (enum rdma_port_space). -/
def RDMA_PS_IB : Nat := 0x013F

/-- The attribute ids (enum rdma_nldev_attr) that the two files index their tables with. -/
inductive Attr
  | RDMA_NLDEV_ATTR_DEV_INDEX
  | RDMA_NLDEV_ATTR_DEV_NAME
  | RDMA_NLDEV_ATTR_PORT_INDEX
  | RDMA_NLDEV_ATTR_RES_LQPN
  | RDMA_NLDEV_ATTR_RES_TYPE
  | RDMA_NLDEV_ATTR_RES_STATE
  | RDMA_NLDEV_ATTR_RES_PID
  | RDMA_NLDEV_ATTR_RES_KERN_NAME
  | RDMA_NLDEV_ATTR_RES_CM_ID
  | RDMA_NLDEV_ATTR_RES_PS
  | RDMA_NLDEV_ATTR_RES_SRC_ADDR
  | RDMA_NLDEV_ATTR_RES_DST_ADDR
  | RDMA_NLDEV_ATTR_RES_CQ
  | RDMA_NLDEV_ATTR_RES_CQE
  | RDMA_NLDEV_ATTR_RES_USECNT
  | RDMA_NLDEV_ATTR_RES_POLL_CTX
  | RDMA_NLDEV_ATTR_DRIVER
  | RDMA_NLDEV_ATTR_RES_CQN
  | RDMA_NLDEV_ATTR_RES_CM_IDN
  | RDMA_NLDEV_ATTR_RES_CTXN
  deriving DecidableEq, Repr

open Attr

/-! ## Attributes and their typed accessors -/

/-- One netlink attribute: its payload bytes. -/
structure nlattr where
  payload : List Nat
  deriving DecidableEq, Repr

/-- Byte `i` of a payload (bytes past the end read as 0). -/
def byte_at (p : List Nat) (i : Nat) : Nat :=
  (p.getD i 0) % 256

/-- Accessor mnl_attr_get_payload. -/
def mnl_attr_get_payload (a : nlattr) : List Nat :=
  a.payload

/-- Accessor mnl_attr_get_u8. -/
def mnl_attr_get_u8 (a : nlattr) : Nat :=
  byte_at a.payload 0

/-- Accessor mnl_attr_get_u32: four payload bytes in host (little-endian) order. -/
def mnl_attr_get_u32 (a : nlattr) : Nat :=
  byte_at a.payload 0 + 256 * byte_at a.payload 1 + 65536 * byte_at a.payload 2 +
    16777216 * byte_at a.payload 3

/-- Accessor mnl_attr_get_u64: eight payload bytes in host (little-endian) order. -/
def mnl_attr_get_u64 (a : nlattr) : Nat :=
  byte_at a.payload 0 + 256 * byte_at a.payload 1 + 65536 * byte_at a.payload 2 +
    16777216 * byte_at a.payload 3 + 4294967296 * (byte_at a.payload 4 +
    256 * byte_at a.payload 5 + 65536 * byte_at a.payload 6 + 16777216 * byte_at a.payload 7)

/-- Accessor mnl_attr_get_str: the payload bytes up to the first NUL, as characters. -/
def mnl_attr_get_str (a : nlattr) : String :=
  String.mk ((a.payload.takeWhile (fun b => b % 256 != 0)).map (fun b => Char.ofNat (b % 256)))

/-- A local variable that starts as `init` and is assigned `mnl_attr_get_u32` of the attribute
when the attribute is present in the table. -/
def assigned_u32 (init : Nat) (attr : Option nlattr) : Nat :=
  match attr with
  | some a => mnl_attr_get_u32 a
  | none => init

/-- A local variable that starts as `init` and is assigned `mnl_attr_get_u8` of the attribute
when the attribute is present in the table. -/
def assigned_u8 (init : Nat) (attr : Option nlattr) : Nat :=
  match attr with
  | some a => mnl_attr_get_u8 a
  | none => init

/-- One nested entry of a resource list, as `mnl_attr_parse_nested(nla_entry, rd_attr_cb,
nla_line)` sees it: the value the parse returns and the table it fills. -/
structure nla_entry where
  parse_nested_ret : Int
  nla_line : Attr → Option nlattr

/-- One response message, as `mnl_attr_parse(nlh, 0, rd_attr_cb, tb)` sees it: the value the
parse returns, the table it fills, and for a nested top-level attribute the entries that
`mnl_attr_for_each_nested` walks. -/
structure nlmsghdr where
  parse_ret : Int
  tb : Attr → Option nlattr
  nested : Attr → List nla_entry

/-! ## The query context and the external collaborators -/

/-- The fields of `struct rd` that the two files read. The filter set built by
`rd_build_filter` is held as the two decisions the filter engine takes on it. -/
structure rd where
  json_output : Bool
  port_idx : Nat
  check_is_filtered : String → Nat → Bool
  check_is_string_filtered : String → String → Bool

/-- Filter engine, numeric check: true when the entry is to be dropped. -/
def rd_check_is_filtered (r : rd) (key : String) (val : Nat) : Bool :=
  r.check_is_filtered key val

/-- Filter engine, string check: true when the entry is to be dropped. -/
def rd_check_is_string_filtered (r : rd) (key : String) (val : String) : Bool :=
  r.check_is_string_filtered key val

/-- Functions declared in `res.h` or libc whose bodies are outside the analysed sources. -/
structure Ext where
  get_task_name : Nat → Option String
  qp_types_to_str : Nat → String
  inet_ntop6_text : List Nat → String

/-! ## Output -/

/-- One step of output: a `pr_out` text, a JSON writer call, or a call of a shared printer
with the arguments it is handed. -/
inductive Out
  | pr_out (text : String)
  | jsonw_string_field (key : String) (val : String)
  | jsonw_start_array
  | print_dev (idx : Nat) (name : String)
  | print_link (idx : Nat) (name : String) (port : Nat)
  | res_print_uint (name : String) (val : Nat) (attr : Option nlattr)
  | print_comm (str : Option String)
  | print_driver_table (attr : Option nlattr)
  | newline
  deriving DecidableEq, Repr

/-- What a run has produced so far: the output trace and the pids looked up. -/
structure World where
  out : List Out
  lookups : List Nat
  deriving DecidableEq, Repr

/-- Append one output step. -/
def emit (o : Out) (w : World) : World :=
  { w with out := w.out ++ [o] }

/-- Text output. -/
def pr_out (text : String) (w : World) : World :=
  emit (Out.pr_out text) w

/-- JSON writer: a string field. -/
def jsonw_string_field (key val : String) (w : World) : World :=
  emit (Out.jsonw_string_field key val) w

/-- JSON writer: open an array. -/
def jsonw_start_array (w : World) : World :=
  emit Out.jsonw_start_array w

/-- Shared printer print_dev. -/
def print_dev (idx : Nat) (name : String) (w : World) : World :=
  emit (Out.print_dev idx name) w

/-- Shared printer print_link. -/
def print_link (idx : Nat) (name : String) (port : Nat) (w : World) : World :=
  emit (Out.print_link idx name port) w

/-- Shared printer res_print_uint. -/
def res_print_uint (name : String) (val : Nat) (attr : Option nlattr) (w : World) : World :=
  emit (Out.res_print_uint name val attr) w

/-- Shared printer print_comm. -/
def print_comm (str : Option String) (w : World) : World :=
  emit (Out.print_comm str) w

/-- Shared printer print_driver_table. -/
def print_driver_table (attr : Option nlattr) (w : World) : World :=
  emit (Out.print_driver_table attr) w

/-- Shared printer newline. -/
def newline (w : World) : World :=
  emit Out.newline w

/-- Process-name lookup, the value: the name of the process, or NULL (`none`). -/
def get_task_name (x : Ext) (pid : Nat) : Option String :=
  x.get_task_name pid

/-- Process-name lookup, the effect: the call is recorded with its pid. -/
def get_task_name_called (pid : Nat) (w : World) : World :=
  { w with lookups := w.lookups ++ [pid] }

/-- A statement under `if (c)` with no else branch. -/
def guarded (c : Bool) (stmt : World → World) (w : World) : World :=
  if c then stmt w else w

/-! ## res-cmid.c -/

/-- Printer print_qp_type. -/
def print_qp_type (r : rd) (x : Ext) (val : Nat) (w : World) : World :=
  if r.json_output then jsonw_string_field "qp-type" (x.qp_types_to_str val) w
  else pr_out ("qp-type " ++ x.qp_types_to_str val ++ " ") w

/-- The table inside cm_id_state_to_str. -/
def cm_id_states_str : List String :=
  ["IDLE", "ADDR_QUERY", "ADDR_RESOLVED",
   "ROUTE_QUERY", "ROUTE_RESOLVED", "CONNECT",
   "DISCONNECT", "ADDR_BOUND", "LISTEN",
   "DEVICE_REMOVAL", "DESTROYING"]

/-- Decoder cm_id_state_to_str. -/
def cm_id_state_to_str (idx : Nat) : String :=
  if idx < cm_id_states_str.length then cm_id_states_str.getD idx "" else "UNKNOWN"

/-- Decoder cm_id_ps_to_str. -/
def cm_id_ps_to_str (ps : Nat) : String :=
  if ps = RDMA_PS_IPOIB then "IPoIB"
  else if ps = RDMA_PS_IB then "IPoIB"
  else if ps = RDMA_PS_TCP then "TCP"
  else if ps = RDMA_PS_UDP then "UDP"
  else "---"

/-- Printer print_cm_id_state. -/
def print_cm_id_state (r : rd) (state : Nat) (w : World) : World :=
  if r.json_output then jsonw_string_field "state" (cm_id_state_to_str state) w
  else pr_out ("state " ++ cm_id_state_to_str state ++ " ") w

/-- Printer print_ps. -/
def print_ps (r : rd) (ps : Nat) (w : World) : World :=
  if r.json_output then jsonw_string_field "ps" (cm_id_ps_to_str ps) w
  else pr_out ("ps " ++ cm_id_ps_to_str ps ++ " ") w

/-- The libc snprintf into a buffer of `size` bytes: at most `size - 1` characters are kept. -/
def snprintf (size : Nat) (text : String) : String :=
  String.mk (text.data.take (size - 1))

/-- Printer print_ipaddr. -/
def print_ipaddr (r : rd) (key : String) (addrstr : String) (port : Nat) (w : World) : World :=
  if r.json_output then
    let name_size := INET6_ADDRSTRLEN + ":65535".length
    let json_name := snprintf name_size (addrstr ++ ":" ++ toString port)
    jsonw_string_field key json_name w
  else pr_out (key ++ " " ++ addrstr ++ ":" ++ toString port ++ " ") w

/-- The libc ntohs on a little-endian host: swap the two bytes. -/
def ntohs (v : Nat) : Nat :=
  (v % 256) * 256 + (v / 256) % 256

/-- Field ss_family of a stored socket address (16 bits, host order, offset 0). -/
def ss_family (addr : List Nat) : Nat :=
  byte_at addr 0 + 256 * byte_at addr 1

/-- Field sin_port / sin6_port (16 bits as stored, offset 2). -/
def sin_port (addr : List Nat) : Nat :=
  byte_at addr 2 + 256 * byte_at addr 3

/-- Field sin_addr of struct sockaddr_in (4 bytes, offset 4). -/
def sin_addr (addr : List Nat) : List Nat :=
  [byte_at addr 4, byte_at addr 5, byte_at addr 6, byte_at addr 7]

/-- Field sin6_addr of struct sockaddr_in6 (16 bytes, offset 8). -/
def sin6_addr (addr : List Nat) : List Nat :=
  (List.range 16).map (fun i => byte_at addr (8 + i))

/-- Dotted-decimal text of four address bytes. -/
def inet_ntop4_text (src : List Nat) : String :=
  toString (byte_at src 0) ++ "." ++ toString (byte_at src 1) ++ "." ++
    toString (byte_at src 2) ++ "." ++ toString (byte_at src 3)

/-- The libc inet_ntop: the text of the address, or NULL (`none`) when the family is not
supported or the text with its NUL does not fit in `size` bytes. -/
def inet_ntop (x : Ext) (af : Nat) (src : List Nat) (size : Nat) : Option String :=
  if af = AF_INET then
    if (inet_ntop4_text src).length < size then some (inet_ntop4_text src) else none
  else if af = AF_INET6 then
    if (x.inet_ntop6_text src).length < size then some (x.inet_ntop6_text src) else none
  else none

/-- Decoder ss_ntop: on success the address text and the port, otherwise the error code. -/
def ss_ntop (x : Ext) (nla_line : nlattr) : Except Int (String × Nat) :=
  let addr := mnl_attr_get_payload nla_line
  if ss_family addr = AF_INET then
    match inet_ntop x AF_INET (sin_addr addr) INET6_ADDRSTRLEN with
    | none => Except.error (-EINVAL)
    | some addr_str => Except.ok (addr_str, ntohs (sin_port addr))
  else if ss_family addr = AF_INET6 then
    match inet_ntop x AF_INET6 (sin6_addr addr) INET6_ADDRSTRLEN with
    | none => Except.error (-EINVAL)
    | some addr_str => Except.ok (addr_str, ntohs (sin_port addr))
  else Except.error (-EINVAL)

/-- One address block of res_cm_id_line (the source block and the destination block have the
same shape): `none` stands for `goto out`; otherwise the decoded address text and port, when
the attribute is present. -/
def res_cm_id_addr (r : rd) (x : Ext) (addr_key port_key : String) (attr : Option nlattr) :
    Option (Option (String × Nat)) :=
  match attr with
  | none => some none
  | some a =>
    match ss_ntop x a with
    | Except.error _ => none
    | Except.ok (addr_str, port) =>
      if rd_check_is_string_filtered r addr_key addr_str then none
      else if rd_check_is_filtered r port_key port then none
      else some (some (addr_str, port))

/-- Printing of one decoded address, when its attribute was present. -/
def res_cm_id_print_addr (r : rd) (key : String) (a : Option (String × Nat)) (w : World) :
    World :=
  match a with
  | none => w
  | some (addr_str, port) => print_ipaddr r key addr_str port w

/-- Per-entry routine res_cm_id_line: the return code and the world after the entry. -/
def res_cm_id_line (r : rd) (x : Ext) (name : String) (idx : Nat) (nla_entry : nla_entry)
    (w : World) : Int × World :=
  let nla_line := nla_entry.nla_line
  if nla_entry.parse_nested_ret ≠ MNL_CB_OK then (MNL_CB_ERROR, w) else
  match nla_line RDMA_NLDEV_ATTR_RES_STATE with
  | none => (MNL_CB_ERROR, w)
  | some a_state =>
  match nla_line RDMA_NLDEV_ATTR_RES_PS with
  | none => (MNL_CB_ERROR, w)
  | some a_ps =>
  if (nla_line RDMA_NLDEV_ATTR_RES_PID).isNone &&
      (nla_line RDMA_NLDEV_ATTR_RES_KERN_NAME).isNone then (MNL_CB_ERROR, w) else
  let port := assigned_u32 0 (nla_line RDMA_NLDEV_ATTR_PORT_INDEX)
  if port ≠ 0 ∧ port ≠ r.port_idx then (MNL_CB_OK, w) else
  let lqpn := assigned_u32 0 (nla_line RDMA_NLDEV_ATTR_RES_LQPN)
  if (nla_line RDMA_NLDEV_ATTR_RES_LQPN).isSome && rd_check_is_filtered r "lqpn" lqpn then
    (MNL_CB_OK, w) else
  let type := assigned_u8 0 (nla_line RDMA_NLDEV_ATTR_RES_TYPE)
  if (nla_line RDMA_NLDEV_ATTR_RES_TYPE).isSome &&
      rd_check_is_string_filtered r "qp-type" (x.qp_types_to_str type) then
    (MNL_CB_OK, w) else
  let ps := mnl_attr_get_u32 a_ps
  if rd_check_is_string_filtered r "ps" (cm_id_ps_to_str ps) then (MNL_CB_OK, w) else
  let state := mnl_attr_get_u8 a_state
  if rd_check_is_string_filtered r "state" (cm_id_state_to_str state) then (MNL_CB_OK, w) else
  match res_cm_id_addr r x "src-addr" "src-port" (nla_line RDMA_NLDEV_ATTR_RES_SRC_ADDR) with
  | none => (MNL_CB_OK, w)
  | some src =>
  match res_cm_id_addr r x "dst-addr" "dst-port" (nla_line RDMA_NLDEV_ATTR_RES_DST_ADDR) with
  | none => (MNL_CB_OK, w)
  | some dst =>
  let pid := assigned_u32 0 (nla_line RDMA_NLDEV_ATTR_RES_PID)
  let comm := if (nla_line RDMA_NLDEV_ATTR_RES_PID).isSome then get_task_name x pid else none
  let w := guarded (nla_line RDMA_NLDEV_ATTR_RES_PID).isSome (get_task_name_called pid) w
  if rd_check_is_filtered r "pid" pid then (MNL_CB_OK, w) else
  let cm_idn := assigned_u32 0 (nla_line RDMA_NLDEV_ATTR_RES_CM_IDN)
  if rd_check_is_filtered r "cm-idn" cm_idn then (MNL_CB_OK, w) else
  let comm := match nla_line RDMA_NLDEV_ATTR_RES_KERN_NAME with
    | some a => some (mnl_attr_get_str a)
    | none => comm
  let w := guarded r.json_output jsonw_start_array w
  let w := print_link idx name port w
  let w := res_print_uint "cm-idn" cm_idn (nla_line RDMA_NLDEV_ATTR_RES_CM_IDN) w
  let w := res_print_uint "lqpn" lqpn (nla_line RDMA_NLDEV_ATTR_RES_LQPN) w
  let w := guarded (nla_line RDMA_NLDEV_ATTR_RES_TYPE).isSome (print_qp_type r x type) w
  let w := print_cm_id_state r state w
  let w := print_ps r ps w
  let w := res_print_uint "pid" pid (nla_line RDMA_NLDEV_ATTR_RES_PID) w
  let w := print_comm comm w
  let w := res_cm_id_print_addr r "src-addr" src w
  let w := res_cm_id_print_addr r "dst-addr" dst w
  let w := print_driver_table (nla_line RDMA_NLDEV_ATTR_DRIVER) w
  let w := newline w
  (MNL_CB_OK, w)

/-- The loop `mnl_attr_for_each_nested` of the two parse callbacks: `ret` is assigned by each
entry and the loop is left at the first value other than MNL_CB_OK. -/
def for_each_nested (line : nla_entry → World → Int × World) :
    List nla_entry → Int → World → Int × World
  | [], ret, w => (ret, w)
  | nla_entry :: rest, _, w =>
    let res := line nla_entry w
    if res.1 ≠ MNL_CB_OK then res else for_each_nested line rest res.1 res.2

/-- Callback res_cm_id_parse_cb. The value `nlh.parse_ret` of the top-level parse is not
read, as in the source. -/
def res_cm_id_parse_cb (r : rd) (x : Ext) (nlh : nlmsghdr) (w : World) : Int × World :=
  let tb := nlh.tb
  match tb RDMA_NLDEV_ATTR_DEV_INDEX with
  | none => (MNL_CB_ERROR, w)
  | some a_idx =>
  match tb RDMA_NLDEV_ATTR_DEV_NAME with
  | none => (MNL_CB_ERROR, w)
  | some a_name =>
  match tb RDMA_NLDEV_ATTR_RES_CM_ID with
  | none => (MNL_CB_ERROR, w)
  | some _ =>
  let name := mnl_attr_get_str a_name
  let idx := mnl_attr_get_u32 a_idx
  for_each_nested (res_cm_id_line r x name idx) (nlh.nested RDMA_NLDEV_ATTR_RES_CM_ID)
    MNL_CB_OK w

/-! ## res-cq.c -/

/-- The table inside poll_ctx_to_str. -/
def poll_ctx_str : List String :=
  ["DIRECT", "SOFTIRQ", "WORKQUEUE", "UNBOUND_WORKQUEUE"]

/-- Decoder poll_ctx_to_str. -/
def poll_ctx_to_str (idx : Nat) : String :=
  if idx < poll_ctx_str.length then poll_ctx_str.getD idx "" else "UNKNOWN"

/-- Printer print_poll_ctx. -/
def print_poll_ctx (r : rd) (poll_ctx : Nat) (attr : Option nlattr) (w : World) : World :=
  if attr.isNone then w
  else if r.json_output then jsonw_string_field "poll-ctx" (poll_ctx_to_str poll_ctx) w
  else pr_out ("poll-ctx " ++ poll_ctx_to_str poll_ctx ++ " ") w

/-- Per-entry routine res_cq_line: the return code and the world after the entry. -/
def res_cq_line (r : rd) (x : Ext) (name : String) (idx : Nat) (nla_entry : nla_entry)
    (w : World) : Int × World :=
  let nla_line := nla_entry.nla_line
  if nla_entry.parse_nested_ret ≠ MNL_CB_OK then (MNL_CB_ERROR, w) else
  match nla_line RDMA_NLDEV_ATTR_RES_CQE with
  | none => (MNL_CB_ERROR, w)
  | some a_cqe =>
  match nla_line RDMA_NLDEV_ATTR_RES_USECNT with
  | none => (MNL_CB_ERROR, w)
  | some a_users =>
  if (nla_line RDMA_NLDEV_ATTR_RES_PID).isNone &&
      (nla_line RDMA_NLDEV_ATTR_RES_KERN_NAME).isNone then (MNL_CB_ERROR, w) else
  let cqe := mnl_attr_get_u32 a_cqe
  let users := mnl_attr_get_u64 a_users
  if rd_check_is_filtered r "users" users then (MNL_CB_OK, w) else
  let poll_ctx := assigned_u8 0 (nla_line RDMA_NLDEV_ATTR_RES_POLL_CTX)
  if (nla_line RDMA_NLDEV_ATTR_RES_POLL_CTX).isSome &&
      rd_check_is_string_filtered r "poll-ctx" (poll_ctx_to_str poll_ctx) then
    (MNL_CB_OK, w) else
  let pid := assigned_u32 0 (nla_line RDMA_NLDEV_ATTR_RES_PID)
  let comm := if (nla_line RDMA_NLDEV_ATTR_RES_PID).isSome then get_task_name x pid else none
  let w := guarded (nla_line RDMA_NLDEV_ATTR_RES_PID).isSome (get_task_name_called pid) w
  if rd_check_is_filtered r "pid" pid then (MNL_CB_OK, w) else
  let cqn := assigned_u32 0 (nla_line RDMA_NLDEV_ATTR_RES_CQN)
  if rd_check_is_filtered r "cqn" cqn then (MNL_CB_OK, w) else
  let ctxn := assigned_u32 0 (nla_line RDMA_NLDEV_ATTR_RES_CTXN)
  if rd_check_is_filtered r "ctxn" ctxn then (MNL_CB_OK, w) else
  let comm := match nla_line RDMA_NLDEV_ATTR_RES_KERN_NAME with
    | some a => some (mnl_attr_get_str a)
    | none => comm
  let w := guarded r.json_output jsonw_start_array w
  let w := print_dev idx name w
  let w := res_print_uint "cqn" cqn (nla_line RDMA_NLDEV_ATTR_RES_CQN) w
  let w := res_print_uint "cqe" cqe (nla_line RDMA_NLDEV_ATTR_RES_CQE) w
  let w := res_print_uint "users" users (nla_line RDMA_NLDEV_ATTR_RES_USECNT) w
  let w := print_poll_ctx r poll_ctx (nla_line RDMA_NLDEV_ATTR_RES_POLL_CTX) w
  let w := res_print_uint "ctxn" ctxn (nla_line RDMA_NLDEV_ATTR_RES_CTXN) w
  let w := res_print_uint "pid" pid (nla_line RDMA_NLDEV_ATTR_RES_PID) w
  let w := print_comm comm w
  let w := print_driver_table (nla_line RDMA_NLDEV_ATTR_DRIVER) w
  let w := newline w
  (MNL_CB_OK, w)

/-- Callback res_cq_parse_cb. The value `nlh.parse_ret` of the top-level parse is not read,
as in the source. -/
def res_cq_parse_cb (r : rd) (x : Ext) (nlh : nlmsghdr) (w : World) : Int × World :=
  let tb := nlh.tb
  match tb RDMA_NLDEV_ATTR_DEV_INDEX with
  | none => (MNL_CB_ERROR, w)
  | some a_idx =>
  match tb RDMA_NLDEV_ATTR_DEV_NAME with
  | none => (MNL_CB_ERROR, w)
  | some a_name =>
  match tb RDMA_NLDEV_ATTR_RES_CQ with
  | none => (MNL_CB_ERROR, w)
  | some _ =>
  let name := mnl_attr_get_str a_name
  let idx := mnl_attr_get_u32 a_idx
  for_each_nested (res_cq_line r x name idx) (nlh.nested RDMA_NLDEV_ATTR_RES_CQ)
    MNL_CB_OK w

/-! ## Worlds and sample inputs -/

/-- The world before anything was printed or looked up. -/
def World.start : World :=
  { out := [], lookups := [] }

/-- Four hexadecimal digits of the 16-bit group at byte offset `i` of an IPv6 address. -/
def hex_group (src : List Nat) (i : Nat) : List Char :=
  let v := 256 * byte_at src i + byte_at src (i + 1)
  [Nat.digitChar (v / 4096 % 16), Nat.digitChar (v / 256 % 16), Nat.digitChar (v / 16 % 16),
    Nat.digitChar (v % 16)]

/-- Sample collaborators: pid 1234 is the process "myapp", queue-pair types are named as in the
protocol table, IPv6 text is the full eight-group form in lower-case hexadecimal. -/
def sample_ext : Ext :=
  { get_task_name := fun pid => if pid = 1234 then some "myapp" else none
    qp_types_to_str := fun idx =>
      if idx < 9 then
        ["SMI", "GSI", "RC", "UC", "UD", "RAW_PACKET", "XRC_INI", "XRC_TGT", "DRIVER"].getD idx ""
      else "UNKNOWN"
    inet_ntop6_text := fun src =>
      String.mk (hex_group src 0 ++ ':' :: hex_group src 2 ++ ':' :: hex_group src 4 ++
        ':' :: hex_group src 6 ++ ':' :: hex_group src 8 ++ ':' :: hex_group src 10 ++
        ':' :: hex_group src 12 ++ ':' :: hex_group src 14) }

/-- A text-mode query with no filter and no target port. -/
def rd_plain : rd :=
  { json_output := false
    port_idx := 0
    check_is_filtered := fun _ _ => false
    check_is_string_filtered := fun _ _ => false }

/-- A text-mode query with no filter on port 1. -/
def rd_port1 : rd :=
  { json_output := false
    port_idx := 1
    check_is_filtered := fun _ _ => false
    check_is_string_filtered := fun _ _ => false }

/-- A connection-manager entry: state 5, port space TCP, pid 1234, source 10.0.0.1:5000,
destination 10.0.0.2:6000. -/
def cm_entry_a : nla_entry :=
  { parse_nested_ret := MNL_CB_OK
    nla_line := fun a =>
      match a with
      | RDMA_NLDEV_ATTR_RES_STATE => some ⟨[5]⟩
      | RDMA_NLDEV_ATTR_RES_PS => some ⟨[6, 1, 0, 0]⟩
      | RDMA_NLDEV_ATTR_RES_PID => some ⟨[210, 4, 0, 0]⟩
      | RDMA_NLDEV_ATTR_RES_SRC_ADDR => some ⟨[2, 0, 19, 136, 10, 0, 0, 1]⟩
      | RDMA_NLDEV_ATTR_RES_DST_ADDR => some ⟨[2, 0, 23, 112, 10, 0, 0, 2]⟩
      | _ => none }

/-- The entry `cm_entry_a` without its state attribute. -/
def cm_entry_no_state : nla_entry :=
  { parse_nested_ret := MNL_CB_OK
    nla_line := fun a =>
      match a with
      | RDMA_NLDEV_ATTR_RES_STATE => none
      | _ => cm_entry_a.nla_line a }

/-- The entry `cm_entry_a` tagged with the given port index. -/
def cm_entry_on_port (port : List Nat) : nla_entry :=
  { parse_nested_ret := MNL_CB_OK
    nla_line := fun a =>
      match a with
      | RDMA_NLDEV_ATTR_PORT_INDEX => some ⟨port⟩
      | _ => cm_entry_a.nla_line a }

/-- The entry `cm_entry_a` with a source address of family 1 (AF_UNIX). -/
def cm_entry_af_unix : nla_entry :=
  { parse_nested_ret := MNL_CB_OK
    nla_line := fun a =>
      match a with
      | RDMA_NLDEV_ATTR_RES_SRC_ADDR => some ⟨[1, 0, 47, 116, 109, 112, 0, 0]⟩
      | _ => cm_entry_a.nla_line a }

/-- A completion-queue entry: 256 cqes, 2 users, pid 1234, poll context 99. -/
def cq_entry_c : nla_entry :=
  { parse_nested_ret := MNL_CB_OK
    nla_line := fun a =>
      match a with
      | RDMA_NLDEV_ATTR_RES_CQE => some ⟨[0, 1, 0, 0]⟩
      | RDMA_NLDEV_ATTR_RES_USECNT => some ⟨[2, 0, 0, 0, 0, 0, 0, 0]⟩
      | RDMA_NLDEV_ATTR_RES_PID => some ⟨[210, 4, 0, 0]⟩
      | RDMA_NLDEV_ATTR_RES_POLL_CTX => some ⟨[99]⟩
      | _ => none }

/-- The entry `cq_entry_c` without its use-count attribute. -/
def cq_entry_no_users : nla_entry :=
  { parse_nested_ret := MNL_CB_OK
    nla_line := fun a =>
      match a with
      | RDMA_NLDEV_ATTR_RES_USECNT => none
      | _ => cq_entry_c.nla_line a }

/-- A response for device 0, named "mlx5_0", whose resource list `kind` holds `entries` and
whose top-level parse returned `parse_ret`. -/
def sample_msg (parse_ret : Int) (kind : Attr) (entries : List nla_entry) : nlmsghdr :=
  { parse_ret := parse_ret
    tb := fun a =>
      if a = RDMA_NLDEV_ATTR_DEV_INDEX then some ⟨[0, 0, 0, 0]⟩
      else if a = RDMA_NLDEV_ATTR_DEV_NAME then some ⟨[109, 108, 120, 53, 95, 48, 0]⟩
      else if a = kind then some ⟨[]⟩
      else none
    nested := fun a => if a = kind then entries else [] }

/-! ## res.h -/

/-- One row of a valid-filter table (`struct filters`): a field name and whether its value is a
number. -/
structure filters where
  name : String
  is_number : Bool
  deriving DecidableEq, Repr

/-- Table pd_valid_filters (the rows the initialiser lists). -/
def pd_valid_filters : List filters :=
  [{ name := "dev", is_number := false },
   { name := "users", is_number := true },
   { name := "pid", is_number := true },
   { name := "ctxn", is_number := true },
   { name := "pdn", is_number := true },
   { name := "ctxn", is_number := true }]

/-- Table mr_valid_filters (the rows the initialiser lists). -/
def mr_valid_filters : List filters :=
  [{ name := "dev", is_number := false },
   { name := "rkey", is_number := true },
   { name := "lkey", is_number := true },
   { name := "mrlen", is_number := true },
   { name := "pid", is_number := true },
   { name := "mrn", is_number := true },
   { name := "pdn", is_number := true }]

/-- Table cq_valid_filters (the rows the initialiser lists). -/
def cq_valid_filters : List filters :=
  [{ name := "dev", is_number := false },
   { name := "users", is_number := true },
   { name := "poll-ctx", is_number := false },
   { name := "pid", is_number := true },
   { name := "cqn", is_number := true },
   { name := "ctxn", is_number := true }]

/-- Table cm_id_valid_filters (the rows the initialiser lists). -/
def cm_id_valid_filters : List filters :=
  [{ name := "link", is_number := false },
   { name := "lqpn", is_number := true },
   { name := "qp-type", is_number := false },
   { name := "state", is_number := false },
   { name := "ps", is_number := false },
   { name := "dev-type", is_number := false },
   { name := "transport-type", is_number := false },
   { name := "pid", is_number := true },
   { name := "src-addr", is_number := false },
   { name := "src-port", is_number := true },
   { name := "dst-addr", is_number := false },
   { name := "dst-port", is_number := true },
   { name := "cm-idn", is_number := true }]

/-- Table qp_valid_filters (the rows the initialiser lists). -/
def qp_valid_filters : List filters :=
  [{ name := "link", is_number := false },
   { name := "lqpn", is_number := true },
   { name := "rqpn", is_number := true },
   { name := "pid", is_number := true },
   { name := "sq-psn", is_number := true },
   { name := "rq-psn", is_number := true },
   { name := "type", is_number := false },
   { name := "path-mig-state", is_number := false },
   { name := "state", is_number := false },
   { name := "pdn", is_number := true }]

/-- The netlink commands that the five expansions of RES_FUNC send. -/
inductive Cmd
  | RDMA_NLDEV_CMD_RES_PD_GET
  | RDMA_NLDEV_CMD_RES_MR_GET
  | RDMA_NLDEV_CMD_RES_CQ_GET
  | RDMA_NLDEV_CMD_RES_CM_ID_GET
  | RDMA_NLDEV_CMD_RES_QP_GET
  deriving DecidableEq, Repr

/-- The parse callbacks declared in res.h. -/
inductive ParseCb
  | res_pd_parse_cb
  | res_mr_parse_cb
  | res_cq_parse_cb
  | res_cm_id_parse_cb
  | res_qp_parse_cb
  deriving DecidableEq, Repr

/-- The inner function `_name` that RES_FUNC generates: a call of
`_res_send_msg(rd, command, name_parse_cb)`, held as the two arguments it fixes. -/
structure SendMsg where
  command : Cmd
  callback : ParseCb
  deriving DecidableEq, Repr

/-- A call of one of the functions that the generated entry point may invoke. -/
inductive Call
  | rd_build_filter (valid_filters : Option (List filters))
  | rd_set_arg_to_devname
  | rd_exec_dev (cb : SendMsg)
  | rd_exec_link (cb : SendMsg) (strict_port : Bool)
  deriving DecidableEq, Repr

/-- The functions of `rdma/utils.c` that the generated entry point invokes, as transformers of
the state `σ` of the tool (the `rd` structure, the socket, the output) that return the `int`
result. -/
structure RdOps (σ : Type) where
  rd_build_filter : Option (List filters) → σ → Int × σ
  rd_set_arg_to_devname : σ → Int × σ
  rd_exec_dev : SendMsg → σ → Int × σ
  rd_exec_link : SendMsg → Bool → σ → Int × σ

/-- The tail of the entry point that RES_FUNC generates:
`if (strict_port) return rd_exec_dev(rd, _name); else return rd_exec_link(rd, _name, strict_port);`
-/
def RES_FUNC_exec {σ : Type} (ops : RdOps σ) (cb : SendMsg) (strict_port : Bool)
    (s : σ × List Call) : Int × (σ × List Call) :=
  if strict_port then
    ((ops.rd_exec_dev cb s.1).1, ((ops.rd_exec_dev cb s.1).2, s.2 ++ [Call.rd_exec_dev cb]))
  else
    ((ops.rd_exec_link cb strict_port s.1).1,
      ((ops.rd_exec_link cb strict_port s.1).2, s.2 ++ [Call.rd_exec_link cb strict_port]))

/-- The entry point `name(rd)` that the macro RES_FUNC(name, command, valid_filters,
strict_port) generates. The state is threaded together with the list of calls made; a NULL
`valid_filters` is `none`. -/
def RES_FUNC {σ : Type} (ops : RdOps σ) (command : Cmd) (callback : ParseCb)
    (valid_filters : Option (List filters)) (strict_port : Bool) (s : σ × List Call) :
    Int × (σ × List Call) :=
  let ret := (ops.rd_build_filter valid_filters s.1).1
  let s := ((ops.rd_build_filter valid_filters s.1).2, s.2 ++ [Call.rd_build_filter valid_filters])
  if ret ≠ 0 then (ret, s) else
  if valid_filters.isSome then
    let ret := (ops.rd_set_arg_to_devname s.1).1
    let s := ((ops.rd_set_arg_to_devname s.1).2, s.2 ++ [Call.rd_set_arg_to_devname])
    if ret ≠ 0 then (ret, s) else
    RES_FUNC_exec ops { command := command, callback := callback } strict_port s
  else
    RES_FUNC_exec ops { command := command, callback := callback } strict_port s

/-- Entry point res_pd: RES_FUNC(res_pd, RDMA_NLDEV_CMD_RES_PD_GET, pd_valid_filters, true). -/
def res_pd {σ : Type} (ops : RdOps σ) (s : σ × List Call) : Int × (σ × List Call) :=
  RES_FUNC ops Cmd.RDMA_NLDEV_CMD_RES_PD_GET ParseCb.res_pd_parse_cb (some pd_valid_filters)
    true s

/-- Entry point res_mr: RES_FUNC(res_mr, RDMA_NLDEV_CMD_RES_MR_GET, mr_valid_filters, true). -/
def res_mr {σ : Type} (ops : RdOps σ) (s : σ × List Call) : Int × (σ × List Call) :=
  RES_FUNC ops Cmd.RDMA_NLDEV_CMD_RES_MR_GET ParseCb.res_mr_parse_cb (some mr_valid_filters)
    true s

/-- Entry point res_cq: RES_FUNC(res_cq, RDMA_NLDEV_CMD_RES_CQ_GET, cq_valid_filters, true). -/
def res_cq {σ : Type} (ops : RdOps σ) (s : σ × List Call) : Int × (σ × List Call) :=
  RES_FUNC ops Cmd.RDMA_NLDEV_CMD_RES_CQ_GET ParseCb.res_cq_parse_cb (some cq_valid_filters)
    true s

/-- Entry point res_cm_id:
RES_FUNC(res_cm_id, RDMA_NLDEV_CMD_RES_CM_ID_GET, cm_id_valid_filters, false). -/
def res_cm_id {σ : Type} (ops : RdOps σ) (s : σ × List Call) : Int × (σ × List Call) :=
  RES_FUNC ops Cmd.RDMA_NLDEV_CMD_RES_CM_ID_GET ParseCb.res_cm_id_parse_cb
    (some cm_id_valid_filters) false s

/-- Entry point res_qp: RES_FUNC(res_qp, RDMA_NLDEV_CMD_RES_QP_GET, qp_valid_filters, false). -/
def res_qp {σ : Type} (ops : RdOps σ) (s : σ × List Call) : Int × (σ × List Call) :=
  RES_FUNC ops Cmd.RDMA_NLDEV_CMD_RES_QP_GET ParseCb.res_qp_parse_cb (some qp_valid_filters)
    false s


/-! ## What the per-entry routines check and print, written out -/

/-- A local variable that starts as `init` and is assigned `mnl_attr_get_u64` of the attribute
when the attribute is present in the table. -/
def assigned_u64 (init : Nat) (attr : Option nlattr) : Nat :=
  match attr with
  | some a => mnl_attr_get_u64 a
  | none => init

/-- The value of `comm` when a per-entry routine reaches print_comm: the kernel name when that
attribute is present, otherwise the result of the lookup when the pid attribute is present,
otherwise NULL. -/
def owner_comm (x : Ext) (e : nla_entry) : Option String :=
  match e.nla_line RDMA_NLDEV_ATTR_RES_KERN_NAME with
  | some a => some (mnl_attr_get_str a)
  | none =>
    if (e.nla_line RDMA_NLDEV_ATTR_RES_PID).isSome then
      get_task_name x (assigned_u32 0 (e.nla_line RDMA_NLDEV_ATTR_RES_PID))
    else none

/-- The lookups a per-entry routine has made once it is past its pid step. -/
def owner_lookups (e : nla_entry) : List Nat :=
  if (e.nla_line RDMA_NLDEV_ATTR_RES_PID).isSome then
    [assigned_u32 0 (e.nla_line RDMA_NLDEV_ATTR_RES_PID)]
  else []

/-- All checks of res_cq_line, in source order: nested parse, required attributes, then the
filters on users, poll-ctx (only with the attribute), pid, cqn and ctxn. -/
def res_cq_checks (r : rd) (e : nla_entry) : Bool :=
  decide (e.parse_nested_ret = MNL_CB_OK) &&
  (e.nla_line RDMA_NLDEV_ATTR_RES_CQE).isSome &&
  (e.nla_line RDMA_NLDEV_ATTR_RES_USECNT).isSome &&
  !((e.nla_line RDMA_NLDEV_ATTR_RES_PID).isNone &&
    (e.nla_line RDMA_NLDEV_ATTR_RES_KERN_NAME).isNone) &&
  !rd_check_is_filtered r "users" (assigned_u64 0 (e.nla_line RDMA_NLDEV_ATTR_RES_USECNT)) &&
  !((e.nla_line RDMA_NLDEV_ATTR_RES_POLL_CTX).isSome &&
    rd_check_is_string_filtered r "poll-ctx"
      (poll_ctx_to_str (assigned_u8 0 (e.nla_line RDMA_NLDEV_ATTR_RES_POLL_CTX)))) &&
  !rd_check_is_filtered r "pid" (assigned_u32 0 (e.nla_line RDMA_NLDEV_ATTR_RES_PID)) &&
  !rd_check_is_filtered r "cqn" (assigned_u32 0 (e.nla_line RDMA_NLDEV_ATTR_RES_CQN)) &&
  !rd_check_is_filtered r "ctxn" (assigned_u32 0 (e.nla_line RDMA_NLDEV_ATTR_RES_CTXN))

/-- The record res_cq_line prints for an entry that passes its checks, in print order. -/
def res_cq_record (r : rd) (x : Ext) (name : String) (idx : Nat) (e : nla_entry) : List Out :=
  (if r.json_output then [Out.jsonw_start_array] else []) ++
  [Out.print_dev idx name,
   Out.res_print_uint "cqn" (assigned_u32 0 (e.nla_line RDMA_NLDEV_ATTR_RES_CQN))
     (e.nla_line RDMA_NLDEV_ATTR_RES_CQN),
   Out.res_print_uint "cqe" (assigned_u32 0 (e.nla_line RDMA_NLDEV_ATTR_RES_CQE))
     (e.nla_line RDMA_NLDEV_ATTR_RES_CQE),
   Out.res_print_uint "users" (assigned_u64 0 (e.nla_line RDMA_NLDEV_ATTR_RES_USECNT))
     (e.nla_line RDMA_NLDEV_ATTR_RES_USECNT)] ++
  (if (e.nla_line RDMA_NLDEV_ATTR_RES_POLL_CTX).isNone then []
    else [if r.json_output then
        Out.jsonw_string_field "poll-ctx"
          (poll_ctx_to_str (assigned_u8 0 (e.nla_line RDMA_NLDEV_ATTR_RES_POLL_CTX)))
      else
        Out.pr_out ("poll-ctx " ++
          poll_ctx_to_str (assigned_u8 0 (e.nla_line RDMA_NLDEV_ATTR_RES_POLL_CTX)) ++ " ")]) ++
  [Out.res_print_uint "ctxn" (assigned_u32 0 (e.nla_line RDMA_NLDEV_ATTR_RES_CTXN))
     (e.nla_line RDMA_NLDEV_ATTR_RES_CTXN),
   Out.res_print_uint "pid" (assigned_u32 0 (e.nla_line RDMA_NLDEV_ATTR_RES_PID))
     (e.nla_line RDMA_NLDEV_ATTR_RES_PID),
   Out.print_comm (owner_comm x e),
   Out.print_driver_table (e.nla_line RDMA_NLDEV_ATTR_DRIVER),
   Out.newline]

/-- The output step of print_ipaddr for a decoded address and port. -/
def ipaddr_out (r : rd) (key : String) (p : String × Nat) : Out :=
  if r.json_output then
    Out.jsonw_string_field key
      (snprintf (INET6_ADDRSTRLEN + ":65535".length) (p.1 ++ ":" ++ toString p.2))
  else Out.pr_out (key ++ " " ++ p.1 ++ ":" ++ toString p.2 ++ " ")

/-- All checks of res_cm_id_line, in source order: nested parse, required attributes, the
port check, the filters on lqpn and qp-type (only with the attribute), on ps and state, the
two address blocks, and the filters on pid and cm-idn. -/
def res_cm_id_checks (r : rd) (x : Ext) (e : nla_entry) : Bool :=
  decide (e.parse_nested_ret = MNL_CB_OK) &&
  (e.nla_line RDMA_NLDEV_ATTR_RES_STATE).isSome &&
  (e.nla_line RDMA_NLDEV_ATTR_RES_PS).isSome &&
  !((e.nla_line RDMA_NLDEV_ATTR_RES_PID).isNone &&
    (e.nla_line RDMA_NLDEV_ATTR_RES_KERN_NAME).isNone) &&
  !(decide (assigned_u32 0 (e.nla_line RDMA_NLDEV_ATTR_PORT_INDEX) ≠ 0) &&
    decide (assigned_u32 0 (e.nla_line RDMA_NLDEV_ATTR_PORT_INDEX) ≠ r.port_idx)) &&
  !((e.nla_line RDMA_NLDEV_ATTR_RES_LQPN).isSome &&
    rd_check_is_filtered r "lqpn" (assigned_u32 0 (e.nla_line RDMA_NLDEV_ATTR_RES_LQPN))) &&
  !((e.nla_line RDMA_NLDEV_ATTR_RES_TYPE).isSome &&
    rd_check_is_string_filtered r "qp-type"
      (x.qp_types_to_str (assigned_u8 0 (e.nla_line RDMA_NLDEV_ATTR_RES_TYPE)))) &&
  !rd_check_is_string_filtered r "ps"
    (cm_id_ps_to_str (assigned_u32 0 (e.nla_line RDMA_NLDEV_ATTR_RES_PS))) &&
  !rd_check_is_string_filtered r "state"
    (cm_id_state_to_str (assigned_u8 0 (e.nla_line RDMA_NLDEV_ATTR_RES_STATE))) &&
  (res_cm_id_addr r x "src-addr" "src-port" (e.nla_line RDMA_NLDEV_ATTR_RES_SRC_ADDR)).isSome &&
  (res_cm_id_addr r x "dst-addr" "dst-port" (e.nla_line RDMA_NLDEV_ATTR_RES_DST_ADDR)).isSome &&
  !rd_check_is_filtered r "pid" (assigned_u32 0 (e.nla_line RDMA_NLDEV_ATTR_RES_PID)) &&
  !rd_check_is_filtered r "cm-idn" (assigned_u32 0 (e.nla_line RDMA_NLDEV_ATTR_RES_CM_IDN))

/-- The record res_cm_id_line prints for an entry that passes its checks, in print order. -/
def res_cm_id_record (r : rd) (x : Ext) (name : String) (idx : Nat) (e : nla_entry) :
    List Out :=
  (if r.json_output then [Out.jsonw_start_array] else []) ++
  [Out.print_link idx name (assigned_u32 0 (e.nla_line RDMA_NLDEV_ATTR_PORT_INDEX)),
   Out.res_print_uint "cm-idn" (assigned_u32 0 (e.nla_line RDMA_NLDEV_ATTR_RES_CM_IDN))
     (e.nla_line RDMA_NLDEV_ATTR_RES_CM_IDN),
   Out.res_print_uint "lqpn" (assigned_u32 0 (e.nla_line RDMA_NLDEV_ATTR_RES_LQPN))
     (e.nla_line RDMA_NLDEV_ATTR_RES_LQPN)] ++
  (if (e.nla_line RDMA_NLDEV_ATTR_RES_TYPE).isSome then
      [if r.json_output then
          Out.jsonw_string_field "qp-type"
            (x.qp_types_to_str (assigned_u8 0 (e.nla_line RDMA_NLDEV_ATTR_RES_TYPE)))
        else
          Out.pr_out ("qp-type " ++
            x.qp_types_to_str (assigned_u8 0 (e.nla_line RDMA_NLDEV_ATTR_RES_TYPE)) ++ " ")]
    else []) ++
  [if r.json_output then
      Out.jsonw_string_field "state"
        (cm_id_state_to_str (assigned_u8 0 (e.nla_line RDMA_NLDEV_ATTR_RES_STATE)))
    else
      Out.pr_out ("state " ++
        cm_id_state_to_str (assigned_u8 0 (e.nla_line RDMA_NLDEV_ATTR_RES_STATE)) ++ " "),
   if r.json_output then
      Out.jsonw_string_field "ps"
        (cm_id_ps_to_str (assigned_u32 0 (e.nla_line RDMA_NLDEV_ATTR_RES_PS)))
    else
      Out.pr_out ("ps " ++
        cm_id_ps_to_str (assigned_u32 0 (e.nla_line RDMA_NLDEV_ATTR_RES_PS)) ++ " "),
   Out.res_print_uint "pid" (assigned_u32 0 (e.nla_line RDMA_NLDEV_ATTR_RES_PID))
     (e.nla_line RDMA_NLDEV_ATTR_RES_PID),
   Out.print_comm (owner_comm x e)] ++
  (res_cm_id_addr r x "src-addr" "src-port"
    (e.nla_line RDMA_NLDEV_ATTR_RES_SRC_ADDR)).join.toList.map (ipaddr_out r "src-addr") ++
  (res_cm_id_addr r x "dst-addr" "dst-port"
    (e.nla_line RDMA_NLDEV_ATTR_RES_DST_ADDR)).join.toList.map (ipaddr_out r "dst-addr") ++
  [Out.print_driver_table (e.nla_line RDMA_NLDEV_ATTR_DRIVER),
   Out.newline]


/-! ## More sample inputs -/

/-- A text-mode query whose numeric filters on lqpn, src-port and dst-port reject every
value. -/
def rd_reject_lqpn_ports : rd :=
  { json_output := false
    port_idx := 0
    check_is_filtered := fun key _ => key == "lqpn" || key == "src-port" || key == "dst-port"
    check_is_string_filtered := fun _ _ => false }

/-- A text-mode query with the one filter `state LISTEN`: every other state text is
rejected. -/
def rd_state_listen : rd :=
  { json_output := false
    port_idx := 0
    check_is_filtered := fun _ _ => false
    check_is_string_filtered := fun key val => key == "state" && val != "LISTEN" }

/-- A text-mode query with the one filter `state CONNECT`. -/
def rd_state_connect : rd :=
  { json_output := false
    port_idx := 0
    check_is_filtered := fun _ _ => false
    check_is_string_filtered := fun key val => key == "state" && val != "CONNECT" }

/-- A text-mode query with the one filter `pid 1234`. -/
def rd_pid_1234 : rd :=
  { json_output := false
    port_idx := 0
    check_is_filtered := fun key val => key == "pid" && val != 1234
    check_is_string_filtered := fun _ _ => false }

/-- A connection-manager entry with only state 5, port space TCP and pid 1234. -/
def cm_entry_bare : nla_entry :=
  { parse_nested_ret := MNL_CB_OK
    nla_line := fun a =>
      match a with
      | RDMA_NLDEV_ATTR_RES_STATE => some ⟨[5]⟩
      | RDMA_NLDEV_ATTR_RES_PS => some ⟨[6, 1, 0, 0]⟩
      | RDMA_NLDEV_ATTR_RES_PID => some ⟨[210, 4, 0, 0]⟩
      | _ => none }

/-- A connection-manager entry owned by the kernel: state 8, port space TCP, kernel name
"nvme". -/
def cm_entry_kernel : nla_entry :=
  { parse_nested_ret := MNL_CB_OK
    nla_line := fun a =>
      match a with
      | RDMA_NLDEV_ATTR_RES_STATE => some ⟨[8]⟩
      | RDMA_NLDEV_ATTR_RES_PS => some ⟨[6, 1, 0, 0]⟩
      | RDMA_NLDEV_ATTR_RES_KERN_NAME => some ⟨[110, 118, 109, 101, 0]⟩
      | _ => none }

/-- The entry `cm_entry_bare` with the kernel name "nvme" added to its pid. -/
def cm_entry_both_owners : nla_entry :=
  { parse_nested_ret := MNL_CB_OK
    nla_line := fun a =>
      match a with
      | RDMA_NLDEV_ATTR_RES_KERN_NAME => some ⟨[110, 118, 109, 101, 0]⟩
      | _ => cm_entry_bare.nla_line a }

/-- The entry `cq_entry_c` with cq number 3 and context number 7 added. -/
def cq_entry_ctxn : nla_entry :=
  { parse_nested_ret := MNL_CB_OK
    nla_line := fun a =>
      match a with
      | RDMA_NLDEV_ATTR_RES_CQN => some ⟨[3, 0, 0, 0]⟩
      | RDMA_NLDEV_ATTR_RES_CTXN => some ⟨[7, 0, 0, 0]⟩
      | _ => cq_entry_c.nla_line a }

/-- A completion-queue entry owned by the kernel: 256 cqes, 2 users, kernel name "nvme", no
poll context. -/
def cq_entry_kernel : nla_entry :=
  { parse_nested_ret := MNL_CB_OK
    nla_line := fun a =>
      match a with
      | RDMA_NLDEV_ATTR_RES_CQE => some ⟨[0, 1, 0, 0]⟩
      | RDMA_NLDEV_ATTR_RES_USECNT => some ⟨[2, 0, 0, 0, 0, 0, 0, 0]⟩
      | RDMA_NLDEV_ATTR_RES_KERN_NAME => some ⟨[110, 118, 109, 101, 0]⟩
      | _ => none }

/-- Sample tool functions over a state that counts the operations run: building the filter
fails with -EINVAL exactly when asked for it, everything else succeeds. -/
def sample_ops (build_fails : Bool) : RdOps Nat :=
  { rd_build_filter := fun _ s => (if build_fails then -EINVAL else 0, s + 1)
    rd_set_arg_to_devname := fun s => (0, s + 1)
    rd_exec_dev := fun _ s => (0, s + 1)
    rd_exec_link := fun _ _ s => (0, s + 1) }


/-! ## Worlds and printers -/

theorem World.eq_of (a b : World) (h1 : a.out = b.out) (h2 : a.lookups = b.lookups) : a = b := by
  cases a; cases b; simp_all

theorem World.same (w : World) : w = { out := w.out ++ [], lookups := w.lookups ++ [] } := by
  cases w; simp

theorem emit_out (o : Out) (w : World) : (emit o w).out = w.out ++ [o] := rfl

theorem emit_lookups (o : Out) (w : World) : (emit o w).lookups = w.lookups := rfl

theorem get_task_name_called_out (pid : Nat) (w : World) :
    (get_task_name_called pid w).out = w.out := rfl

theorem get_task_name_called_lookups (pid : Nat) (w : World) :
    (get_task_name_called pid w).lookups = w.lookups ++ [pid] := rfl

theorem guarded_out (c : Bool) (stmt : World → World) (d : List Out)
    (h : ∀ w, (stmt w).out = w.out ++ d) (w : World) :
    (guarded c stmt w).out = w.out ++ (if c then d else []) := by
  cases c <;> simp [guarded, h]

theorem guarded_lookups (c : Bool) (stmt : World → World) (l : List Nat)
    (h : ∀ w, (stmt w).lookups = w.lookups ++ l) (w : World) :
    (guarded c stmt w).lookups = w.lookups ++ (if c then l else []) := by
  cases c <;> simp [guarded, h]

theorem guarded_lookups_same (c : Bool) (stmt : World → World)
    (h : ∀ w, (stmt w).lookups = w.lookups) (w : World) :
    (guarded c stmt w).lookups = w.lookups := by
  cases c <;> simp [guarded, h]

theorem guarded_called_out (c : Bool) (pid : Nat) (w : World) :
    (guarded c (get_task_name_called pid) w).out = w.out := by
  cases c <;> rfl

theorem guarded_called_lookups (c : Bool) (pid : Nat) (w : World) :
    (guarded c (get_task_name_called pid) w).lookups = w.lookups ++ (if c then [pid] else []) :=
  guarded_lookups c _ [pid] (get_task_name_called_lookups pid) w

theorem guarded_json_out (c : Bool) (w : World) :
    (guarded c jsonw_start_array w).out = w.out ++ (if c then [Out.jsonw_start_array] else []) :=
  guarded_out c _ _ (emit_out _) w

theorem guarded_json_lookups (c : Bool) (w : World) :
    (guarded c jsonw_start_array w).lookups = w.lookups :=
  guarded_lookups_same c _ (emit_lookups _) w

theorem print_dev_out (idx : Nat) (name : String) (w : World) :
    (print_dev idx name w).out = w.out ++ [Out.print_dev idx name] := rfl

theorem print_dev_lookups (idx : Nat) (name : String) (w : World) :
    (print_dev idx name w).lookups = w.lookups := rfl

theorem print_link_out (idx : Nat) (name : String) (port : Nat) (w : World) :
    (print_link idx name port w).out = w.out ++ [Out.print_link idx name port] := rfl

theorem print_link_lookups (idx : Nat) (name : String) (port : Nat) (w : World) :
    (print_link idx name port w).lookups = w.lookups := rfl

theorem res_print_uint_out (name : String) (val : Nat) (attr : Option nlattr) (w : World) :
    (res_print_uint name val attr w).out = w.out ++ [Out.res_print_uint name val attr] := rfl

theorem res_print_uint_lookups (name : String) (val : Nat) (attr : Option nlattr) (w : World) :
    (res_print_uint name val attr w).lookups = w.lookups := rfl

theorem print_comm_out (str : Option String) (w : World) :
    (print_comm str w).out = w.out ++ [Out.print_comm str] := rfl

theorem print_comm_lookups (str : Option String) (w : World) :
    (print_comm str w).lookups = w.lookups := rfl

theorem print_driver_table_out (attr : Option nlattr) (w : World) :
    (print_driver_table attr w).out = w.out ++ [Out.print_driver_table attr] := rfl

theorem print_driver_table_lookups (attr : Option nlattr) (w : World) :
    (print_driver_table attr w).lookups = w.lookups := rfl

theorem newline_out (w : World) : (newline w).out = w.out ++ [Out.newline] := rfl

theorem newline_lookups (w : World) : (newline w).lookups = w.lookups := rfl

theorem print_qp_type_out (r : rd) (x : Ext) (val : Nat) (w : World) :
    (print_qp_type r x val w).out = w.out ++
      [if r.json_output then Out.jsonw_string_field "qp-type" (x.qp_types_to_str val)
        else Out.pr_out ("qp-type " ++ x.qp_types_to_str val ++ " ")] := by
  unfold print_qp_type; split <;> rfl

theorem print_qp_type_lookups (r : rd) (x : Ext) (val : Nat) (w : World) :
    (print_qp_type r x val w).lookups = w.lookups := by
  unfold print_qp_type; split <;> rfl

theorem guarded_qp_type_out (c : Bool) (r : rd) (x : Ext) (val : Nat) (w : World) :
    (guarded c (print_qp_type r x val) w).out = w.out ++
      (if c then [if r.json_output then Out.jsonw_string_field "qp-type" (x.qp_types_to_str val)
        else Out.pr_out ("qp-type " ++ x.qp_types_to_str val ++ " ")] else []) :=
  guarded_out c _ _ (print_qp_type_out r x val) w

theorem guarded_qp_type_lookups (c : Bool) (r : rd) (x : Ext) (val : Nat) (w : World) :
    (guarded c (print_qp_type r x val) w).lookups = w.lookups :=
  guarded_lookups_same c _ (print_qp_type_lookups r x val) w

theorem print_cm_id_state_out (r : rd) (state : Nat) (w : World) :
    (print_cm_id_state r state w).out = w.out ++
      [if r.json_output then Out.jsonw_string_field "state" (cm_id_state_to_str state)
        else Out.pr_out ("state " ++ cm_id_state_to_str state ++ " ")] := by
  unfold print_cm_id_state; split <;> rfl

theorem print_cm_id_state_lookups (r : rd) (state : Nat) (w : World) :
    (print_cm_id_state r state w).lookups = w.lookups := by
  unfold print_cm_id_state; split <;> rfl

theorem print_ps_out (r : rd) (ps : Nat) (w : World) :
    (print_ps r ps w).out = w.out ++
      [if r.json_output then Out.jsonw_string_field "ps" (cm_id_ps_to_str ps)
        else Out.pr_out ("ps " ++ cm_id_ps_to_str ps ++ " ")] := by
  unfold print_ps; split <;> rfl

theorem print_ps_lookups (r : rd) (ps : Nat) (w : World) :
    (print_ps r ps w).lookups = w.lookups := by
  unfold print_ps; split <;> rfl

theorem print_ipaddr_out (r : rd) (key addrstr : String) (port : Nat) (w : World) :
    (print_ipaddr r key addrstr port w).out = w.out ++
      [if r.json_output then
          Out.jsonw_string_field key
            (snprintf (INET6_ADDRSTRLEN + ":65535".length) (addrstr ++ ":" ++ toString port))
        else Out.pr_out (key ++ " " ++ addrstr ++ ":" ++ toString port ++ " ")] := by
  unfold print_ipaddr; split <;> rfl

theorem print_ipaddr_lookups (r : rd) (key addrstr : String) (port : Nat) (w : World) :
    (print_ipaddr r key addrstr port w).lookups = w.lookups := by
  unfold print_ipaddr; split <;> rfl

theorem res_cm_id_print_addr_out (r : rd) (key : String) (a : Option (String × Nat))
    (w : World) :
    (res_cm_id_print_addr r key a w).out = w.out ++
      a.toList.map (fun p =>
        if r.json_output then
          Out.jsonw_string_field key
            (snprintf (INET6_ADDRSTRLEN + ":65535".length) (p.1 ++ ":" ++ toString p.2))
        else Out.pr_out (key ++ " " ++ p.1 ++ ":" ++ toString p.2 ++ " ")) := by
  cases a with
  | none => simp [res_cm_id_print_addr]
  | some p => simp [res_cm_id_print_addr, print_ipaddr_out]

theorem res_cm_id_print_addr_lookups (r : rd) (key : String) (a : Option (String × Nat))
    (w : World) :
    (res_cm_id_print_addr r key a w).lookups = w.lookups := by
  cases a with
  | none => rfl
  | some p => simp [res_cm_id_print_addr, print_ipaddr_lookups]

theorem print_poll_ctx_out (r : rd) (poll_ctx : Nat) (attr : Option nlattr) (w : World) :
    (print_poll_ctx r poll_ctx attr w).out = w.out ++
      (if attr.isNone then []
        else [if r.json_output then Out.jsonw_string_field "poll-ctx" (poll_ctx_to_str poll_ctx)
          else Out.pr_out ("poll-ctx " ++ poll_ctx_to_str poll_ctx ++ " ")]) := by
  unfold print_poll_ctx
  cases attr.isNone <;> cases r.json_output <;> simp [jsonw_string_field, pr_out, emit_out]

theorem print_poll_ctx_lookups (r : rd) (poll_ctx : Nat) (attr : Option nlattr) (w : World) :
    (print_poll_ctx r poll_ctx attr w).lookups = w.lookups := by
  unfold print_poll_ctx
  cases attr.isNone <;> cases r.json_output <;> simp [jsonw_string_field, pr_out, emit_lookups]

/-! ## Early exits of the per-entry routines -/

theorem res_cm_id_line_parse_error (r : rd) (x : Ext) (name : String) (idx : Nat)
    (e : nla_entry) (h : e.parse_nested_ret ≠ MNL_CB_OK) (w : World) :
    res_cm_id_line r x name idx e w = (MNL_CB_ERROR, w) := by
  simp only [res_cm_id_line, if_pos h]

theorem res_cq_line_parse_error (r : rd) (x : Ext) (name : String) (idx : Nat)
    (e : nla_entry) (h : e.parse_nested_ret ≠ MNL_CB_OK) (w : World) :
    res_cq_line r x name idx e w = (MNL_CB_ERROR, w) := by
  simp only [res_cq_line, if_pos h]

theorem res_cm_id_line_missing (r : rd) (x : Ext) (name : String) (idx : Nat) (e : nla_entry)
    (h : e.nla_line RDMA_NLDEV_ATTR_RES_STATE = none ∨
      e.nla_line RDMA_NLDEV_ATTR_RES_PS = none ∨
      (e.nla_line RDMA_NLDEV_ATTR_RES_PID = none ∧
        e.nla_line RDMA_NLDEV_ATTR_RES_KERN_NAME = none)) (w : World) :
    res_cm_id_line r x name idx e w = (MNL_CB_ERROR, w) := by
  by_cases h1 : e.parse_nested_ret = MNL_CB_OK
  swap
  · exact res_cm_id_line_parse_error r x name idx e h1 w
  cases hs : e.nla_line RDMA_NLDEV_ATTR_RES_STATE with
  | none => simp only [res_cm_id_line, h1, hs, ne_eq, not_true_eq_false, if_false]
  | some a_state =>
  cases hp : e.nla_line RDMA_NLDEV_ATTR_RES_PS with
  | none => simp only [res_cm_id_line, h1, hs, hp, ne_eq, not_true_eq_false, if_false]
  | some a_ps =>
  have c0 : ((e.nla_line RDMA_NLDEV_ATTR_RES_PID).isNone &&
      (e.nla_line RDMA_NLDEV_ATTR_RES_KERN_NAME).isNone) = true := by
    rcases h with h | h | ⟨h, h'⟩
    · rw [hs] at h; cases h
    · rw [hp] at h; cases h
    · rw [h, h']; rfl
  simp only [res_cm_id_line, h1, hs, hp, ne_eq, not_true_eq_false, if_false, if_pos c0]

theorem res_cq_line_missing (r : rd) (x : Ext) (name : String) (idx : Nat) (e : nla_entry)
    (h : e.nla_line RDMA_NLDEV_ATTR_RES_CQE = none ∨
      e.nla_line RDMA_NLDEV_ATTR_RES_USECNT = none ∨
      (e.nla_line RDMA_NLDEV_ATTR_RES_PID = none ∧
        e.nla_line RDMA_NLDEV_ATTR_RES_KERN_NAME = none)) (w : World) :
    res_cq_line r x name idx e w = (MNL_CB_ERROR, w) := by
  by_cases h1 : e.parse_nested_ret = MNL_CB_OK
  swap
  · exact res_cq_line_parse_error r x name idx e h1 w
  cases hq : e.nla_line RDMA_NLDEV_ATTR_RES_CQE with
  | none => simp only [res_cq_line, h1, hq, ne_eq, not_true_eq_false, if_false]
  | some a_cqe =>
  cases hu : e.nla_line RDMA_NLDEV_ATTR_RES_USECNT with
  | none => simp only [res_cq_line, h1, hq, hu, ne_eq, not_true_eq_false, if_false]
  | some a_users =>
  have c0 : ((e.nla_line RDMA_NLDEV_ATTR_RES_PID).isNone &&
      (e.nla_line RDMA_NLDEV_ATTR_RES_KERN_NAME).isNone) = true := by
    rcases h with h | h | ⟨h, h'⟩
    · rw [hq] at h; cases h
    · rw [hu] at h; cases h
    · rw [h, h']; rfl
  simp only [res_cq_line, h1, hq, hu, ne_eq, not_true_eq_false, if_false, if_pos c0]

theorem owner_present (e : nla_entry)
    (h : e.nla_line RDMA_NLDEV_ATTR_RES_PID ≠ none ∨
      e.nla_line RDMA_NLDEV_ATTR_RES_KERN_NAME ≠ none) :
    ¬((e.nla_line RDMA_NLDEV_ATTR_RES_PID).isNone &&
      (e.nla_line RDMA_NLDEV_ATTR_RES_KERN_NAME).isNone) = true := by
  rcases h with h | h
  · cases hpid : e.nla_line RDMA_NLDEV_ATTR_RES_PID with
    | none => exact absurd hpid h
    | some a => simp
  · cases hk : e.nla_line RDMA_NLDEV_ATTR_RES_KERN_NAME with
    | none => exact absurd hk h
    | some a => simp

/-! ## The per-entry routines act on the world by appending -/

theorem res_cm_id_line_frame (r : rd) (x : Ext) (name : String) (idx : Nat) (e : nla_entry)
    (w : World) :
    res_cm_id_line r x name idx e w =
      ((res_cm_id_line r x name idx e World.start).1,
        { out := w.out ++ (res_cm_id_line r x name idx e World.start).2.out
          lookups := w.lookups ++ (res_cm_id_line r x name idx e World.start).2.lookups }) := by
  by_cases h1 : e.parse_nested_ret = MNL_CB_OK
  swap
  · simp only [res_cm_id_line, h1, World.start, ne_eq, not_false_eq_true, if_true]
    exact Prod.ext rfl (World.same w)
  cases hs : e.nla_line RDMA_NLDEV_ATTR_RES_STATE with
  | none =>
    simp only [res_cm_id_line, h1, hs, World.start, ne_eq, not_true_eq_false, if_false]
    exact Prod.ext rfl (World.same w)
  | some a_state =>
  cases hp : e.nla_line RDMA_NLDEV_ATTR_RES_PS with
  | none =>
    simp only [res_cm_id_line, h1, hs, hp, World.start, ne_eq, not_true_eq_false, if_false]
    exact Prod.ext rfl (World.same w)
  | some a_ps =>
  simp only [res_cm_id_line, h1, hs, hp, ne_eq, not_true_eq_false, if_false]
  by_cases c0 : ((e.nla_line RDMA_NLDEV_ATTR_RES_PID).isNone &&
      (e.nla_line RDMA_NLDEV_ATTR_RES_KERN_NAME).isNone) = true
  · simp only [if_pos c0]
    exact Prod.ext rfl (World.same w)
  simp only [if_neg c0]
  by_cases c1 : ¬assigned_u32 0 (e.nla_line RDMA_NLDEV_ATTR_PORT_INDEX) = 0 ∧
      ¬assigned_u32 0 (e.nla_line RDMA_NLDEV_ATTR_PORT_INDEX) = r.port_idx
  · simp only [if_pos c1]
    exact Prod.ext rfl (World.same w)
  simp only [if_neg c1]
  by_cases c2 : ((e.nla_line RDMA_NLDEV_ATTR_RES_LQPN).isSome &&
      rd_check_is_filtered r "lqpn" (assigned_u32 0 (e.nla_line RDMA_NLDEV_ATTR_RES_LQPN))) = true
  · simp only [if_pos c2]
    exact Prod.ext rfl (World.same w)
  simp only [if_neg c2]
  by_cases c3 : ((e.nla_line RDMA_NLDEV_ATTR_RES_TYPE).isSome &&
      rd_check_is_string_filtered r "qp-type"
        (x.qp_types_to_str (assigned_u8 0 (e.nla_line RDMA_NLDEV_ATTR_RES_TYPE)))) = true
  · simp only [if_pos c3]
    exact Prod.ext rfl (World.same w)
  simp only [if_neg c3]
  by_cases c4 : rd_check_is_string_filtered r "ps" (cm_id_ps_to_str (mnl_attr_get_u32 a_ps)) = true
  · simp only [if_pos c4]
    exact Prod.ext rfl (World.same w)
  simp only [if_neg c4]
  by_cases c5 : rd_check_is_string_filtered r "state"
      (cm_id_state_to_str (mnl_attr_get_u8 a_state)) = true
  · simp only [if_pos c5]
    exact Prod.ext rfl (World.same w)
  simp only [if_neg c5]
  cases hsrc : res_cm_id_addr r x "src-addr" "src-port"
      (e.nla_line RDMA_NLDEV_ATTR_RES_SRC_ADDR) with
  | none => exact Prod.ext rfl (World.same w)
  | some src =>
  cases hdst : res_cm_id_addr r x "dst-addr" "dst-port"
      (e.nla_line RDMA_NLDEV_ATTR_RES_DST_ADDR) with
  | none => exact Prod.ext rfl (World.same w)
  | some dst =>
  simp only []
  by_cases c6 : rd_check_is_filtered r "pid"
      (assigned_u32 0 (e.nla_line RDMA_NLDEV_ATTR_RES_PID)) = true
  · simp only [if_pos c6]
    refine Prod.ext rfl (World.eq_of _ _ ?_ ?_) <;>
      simp only [guarded_called_out, guarded_called_lookups, World.start, List.append_nil,
        List.nil_append]
  simp only [if_neg c6]
  by_cases c7 : rd_check_is_filtered r "cm-idn"
      (assigned_u32 0 (e.nla_line RDMA_NLDEV_ATTR_RES_CM_IDN)) = true
  · simp only [if_pos c7]
    refine Prod.ext rfl (World.eq_of _ _ ?_ ?_) <;>
      simp only [guarded_called_out, guarded_called_lookups, World.start, List.append_nil,
        List.nil_append]
  simp only [if_neg c7]
  refine Prod.ext rfl (World.eq_of _ _ ?_ ?_)
  · simp only [newline_out, print_driver_table_out, res_cm_id_print_addr_out, print_comm_out,
      res_print_uint_out, print_ps_out, print_cm_id_state_out, guarded_qp_type_out,
      print_link_out, guarded_json_out, guarded_called_out, World.start, List.append_assoc,
      List.nil_append]
  · simp only [newline_lookups, print_driver_table_lookups, res_cm_id_print_addr_lookups,
      print_comm_lookups, res_print_uint_lookups, print_ps_lookups, print_cm_id_state_lookups,
      guarded_qp_type_lookups, print_link_lookups, guarded_json_lookups, guarded_called_lookups,
      World.start, List.nil_append]

theorem res_cq_line_frame (r : rd) (x : Ext) (name : String) (idx : Nat) (e : nla_entry)
    (w : World) :
    res_cq_line r x name idx e w =
      ((res_cq_line r x name idx e World.start).1,
        { out := w.out ++ (res_cq_line r x name idx e World.start).2.out
          lookups := w.lookups ++ (res_cq_line r x name idx e World.start).2.lookups }) := by
  by_cases h1 : e.parse_nested_ret = MNL_CB_OK
  swap
  · simp only [res_cq_line, h1, World.start, ne_eq, not_false_eq_true, if_true]
    exact Prod.ext rfl (World.same w)
  cases hq : e.nla_line RDMA_NLDEV_ATTR_RES_CQE with
  | none =>
    simp only [res_cq_line, h1, hq, World.start, ne_eq, not_true_eq_false, if_false]
    exact Prod.ext rfl (World.same w)
  | some a_cqe =>
  cases hu : e.nla_line RDMA_NLDEV_ATTR_RES_USECNT with
  | none =>
    simp only [res_cq_line, h1, hq, hu, World.start, ne_eq, not_true_eq_false, if_false]
    exact Prod.ext rfl (World.same w)
  | some a_users =>
  simp only [res_cq_line, h1, hq, hu, ne_eq, not_true_eq_false, if_false]
  by_cases c0 : ((e.nla_line RDMA_NLDEV_ATTR_RES_PID).isNone &&
      (e.nla_line RDMA_NLDEV_ATTR_RES_KERN_NAME).isNone) = true
  · simp only [if_pos c0]
    exact Prod.ext rfl (World.same w)
  simp only [if_neg c0]
  by_cases c1 : rd_check_is_filtered r "users" (mnl_attr_get_u64 a_users) = true
  · simp only [if_pos c1]
    exact Prod.ext rfl (World.same w)
  simp only [if_neg c1]
  by_cases c2 : ((e.nla_line RDMA_NLDEV_ATTR_RES_POLL_CTX).isSome &&
      rd_check_is_string_filtered r "poll-ctx"
        (poll_ctx_to_str (assigned_u8 0 (e.nla_line RDMA_NLDEV_ATTR_RES_POLL_CTX)))) = true
  · simp only [if_pos c2]
    exact Prod.ext rfl (World.same w)
  simp only [if_neg c2]
  by_cases c3 : rd_check_is_filtered r "pid"
      (assigned_u32 0 (e.nla_line RDMA_NLDEV_ATTR_RES_PID)) = true
  · simp only [if_pos c3]
    refine Prod.ext rfl (World.eq_of _ _ ?_ ?_) <;>
      simp only [guarded_called_out, guarded_called_lookups, World.start, List.append_nil,
        List.nil_append]
  simp only [if_neg c3]
  by_cases c4 : rd_check_is_filtered r "cqn"
      (assigned_u32 0 (e.nla_line RDMA_NLDEV_ATTR_RES_CQN)) = true
  · simp only [if_pos c4]
    refine Prod.ext rfl (World.eq_of _ _ ?_ ?_) <;>
      simp only [guarded_called_out, guarded_called_lookups, World.start, List.append_nil,
        List.nil_append]
  simp only [if_neg c4]
  by_cases c5 : rd_check_is_filtered r "ctxn"
      (assigned_u32 0 (e.nla_line RDMA_NLDEV_ATTR_RES_CTXN)) = true
  · simp only [if_pos c5]
    refine Prod.ext rfl (World.eq_of _ _ ?_ ?_) <;>
      simp only [guarded_called_out, guarded_called_lookups, World.start, List.append_nil,
        List.nil_append]
  simp only [if_neg c5]
  refine Prod.ext rfl (World.eq_of _ _ ?_ ?_)
  · simp only [newline_out, print_driver_table_out, print_comm_out, res_print_uint_out,
      print_poll_ctx_out, print_dev_out, guarded_json_out, guarded_called_out, World.start,
      List.append_assoc, List.nil_append]
  · simp only [newline_lookups, print_driver_table_lookups, print_comm_lookups,
      res_print_uint_lookups, print_poll_ctx_lookups, print_dev_lookups, guarded_json_lookups,
      guarded_called_lookups, World.start, List.nil_append]

/-! ## The loop over the nested entries -/

theorem for_each_nested_all_ok (line : nla_entry → World → Int × World)
    (hf : ∀ e w, line e w = ((line e World.start).1,
      { out := w.out ++ (line e World.start).2.out
        lookups := w.lookups ++ (line e World.start).2.lookups }))
    (es : List nla_entry) (hok : ∀ p ∈ es, (line p World.start).1 = MNL_CB_OK) (w : World) :
    for_each_nested line es MNL_CB_OK w =
      (MNL_CB_OK,
        { out := w.out ++ (es.map (fun p => (line p World.start).2.out)).flatten
          lookups := w.lookups ++ (es.map (fun p => (line p World.start).2.lookups)).flatten }) := by
  induction es generalizing w with
  | nil => simp [for_each_nested]
  | cons p ps ih =>
    have hp : (line p World.start).1 = MNL_CB_OK := hok p (List.mem_cons_self _ _)
    have hps : ∀ q ∈ ps, (line q World.start).1 = MNL_CB_OK :=
      fun q hq => hok q (List.mem_cons_of_mem _ hq)
    rw [for_each_nested, hf p w]
    simp only [hp, ne_eq, not_true_eq_false, if_false]
    rw [ih hps]
    simp [List.append_assoc]

theorem for_each_nested_stop (line : nla_entry → World → Int × World)
    (hf : ∀ e w, line e w = ((line e World.start).1,
      { out := w.out ++ (line e World.start).2.out
        lookups := w.lookups ++ (line e World.start).2.lookups }))
    (pre : List nla_entry) (e : nla_entry) (post : List nla_entry)
    (hok : ∀ p ∈ pre, (line p World.start).1 = MNL_CB_OK)
    (he : (line e World.start).1 ≠ MNL_CB_OK) (ret : Int) (w : World) :
    for_each_nested line (pre ++ e :: post) ret w =
      ((line e World.start).1,
        { out := w.out ++ ((pre ++ [e]).map (fun p => (line p World.start).2.out)).flatten
          lookups := w.lookups ++
            ((pre ++ [e]).map (fun p => (line p World.start).2.lookups)).flatten }) := by
  induction pre generalizing w ret with
  | nil =>
    rw [List.nil_append, for_each_nested, hf e w]
    simp [he]
  | cons p ps ih =>
    have hp : (line p World.start).1 = MNL_CB_OK := hok p (List.mem_cons_self _ _)
    have hps : ∀ q ∈ ps, (line q World.start).1 = MNL_CB_OK :=
      fun q hq => hok q (List.mem_cons_of_mem _ hq)
    rw [List.cons_append, for_each_nested, hf p w]
    simp only [hp, ne_eq, not_true_eq_false, if_false]
    rw [ih hps]
    simp [List.append_assoc]

theorem for_each_nested_skip (line : nla_entry → World → Int × World)
    (pre : List nla_entry) (e : nla_entry) (post : List nla_entry)
    (he : ∀ w, line e w = (MNL_CB_OK, w)) (w : World) :
    for_each_nested line (pre ++ e :: post) MNL_CB_OK w =
      for_each_nested line (pre ++ post) MNL_CB_OK w := by
  induction pre generalizing w with
  | nil =>
    rw [List.nil_append, List.nil_append, for_each_nested, he w]
    simp
  | cons p ps ih =>
    rw [List.cons_append, List.cons_append, for_each_nested, for_each_nested]
    by_cases hp : (line p w).1 = MNL_CB_OK
    · simp only [hp, ne_eq, not_true_eq_false, if_false]
      exact ih _
    · simp [hp]

/-! ## Claims about the envelope and the iteration -/

/-- C1, counterexample: in a connection-manager response with a valid envelope whose first
entry lacks the state attribute and whose second entry is complete (on its own it returns
MNL_CB_OK and prints a record), the callback returns MNL_CB_ERROR, not MNL_CB_OK, and the
second entry is never processed: nothing is printed and no name is looked up. -/
theorem missing_required_counterexample :
    (res_cm_id_line rd_plain sample_ext "mlx5_0" 0 cm_entry_a World.start).1 = MNL_CB_OK ∧
    (res_cm_id_line rd_plain sample_ext "mlx5_0" 0 cm_entry_a World.start).2.out ≠ [] ∧
    (res_cm_id_parse_cb rd_plain sample_ext
      (sample_msg MNL_CB_OK RDMA_NLDEV_ATTR_RES_CM_ID [cm_entry_no_state, cm_entry_a])
      World.start).1 ≠ MNL_CB_OK ∧
    res_cm_id_parse_cb rd_plain sample_ext
      (sample_msg MNL_CB_OK RDMA_NLDEV_ATTR_RES_CM_ID [cm_entry_no_state, cm_entry_a])
      World.start = (MNL_CB_ERROR, World.start) := by
  decide

/-- C1, amended: in a response with a valid envelope, an entry that lacks a required
attribute (cm-id: state, port space, or both of pid and kernel name; cq: cqe, use count, or
both of pid and kernel name) prints nothing and makes its routine return MNL_CB_ERROR; when
the entries before it return MNL_CB_OK, the callback returns MNL_CB_ERROR, its output and
lookups are exactly those of the entries before it, and no entry after it is processed. -/
theorem missing_required_aborts (r : rd) (x : Ext) (nlh : nlmsghdr) (w : World)
    (a_idx a_name : nlattr)
    (h_idx : nlh.tb RDMA_NLDEV_ATTR_DEV_INDEX = some a_idx)
    (h_name : nlh.tb RDMA_NLDEV_ATTR_DEV_NAME = some a_name) :
    (∀ a_table pre e post, nlh.tb RDMA_NLDEV_ATTR_RES_CM_ID = some a_table →
      nlh.nested RDMA_NLDEV_ATTR_RES_CM_ID = pre ++ e :: post →
      (e.nla_line RDMA_NLDEV_ATTR_RES_STATE = none ∨ e.nla_line RDMA_NLDEV_ATTR_RES_PS = none ∨
        (e.nla_line RDMA_NLDEV_ATTR_RES_PID = none ∧
          e.nla_line RDMA_NLDEV_ATTR_RES_KERN_NAME = none)) →
      (∀ p ∈ pre, (res_cm_id_line r x (mnl_attr_get_str a_name) (mnl_attr_get_u32 a_idx) p
        World.start).1 = MNL_CB_OK) →
      (∀ v, res_cm_id_line r x (mnl_attr_get_str a_name) (mnl_attr_get_u32 a_idx) e v =
        (MNL_CB_ERROR, v)) ∧
      res_cm_id_parse_cb r x nlh w =
        (MNL_CB_ERROR,
          { out := w.out ++ (pre.map (fun p => (res_cm_id_line r x (mnl_attr_get_str a_name)
              (mnl_attr_get_u32 a_idx) p World.start).2.out)).flatten
            lookups := w.lookups ++ (pre.map (fun p => (res_cm_id_line r x
              (mnl_attr_get_str a_name) (mnl_attr_get_u32 a_idx) p
              World.start).2.lookups)).flatten })) ∧
    (∀ a_table pre e post, nlh.tb RDMA_NLDEV_ATTR_RES_CQ = some a_table →
      nlh.nested RDMA_NLDEV_ATTR_RES_CQ = pre ++ e :: post →
      (e.nla_line RDMA_NLDEV_ATTR_RES_CQE = none ∨
        e.nla_line RDMA_NLDEV_ATTR_RES_USECNT = none ∨
        (e.nla_line RDMA_NLDEV_ATTR_RES_PID = none ∧
          e.nla_line RDMA_NLDEV_ATTR_RES_KERN_NAME = none)) →
      (∀ p ∈ pre, (res_cq_line r x (mnl_attr_get_str a_name) (mnl_attr_get_u32 a_idx) p
        World.start).1 = MNL_CB_OK) →
      (∀ v, res_cq_line r x (mnl_attr_get_str a_name) (mnl_attr_get_u32 a_idx) e v =
        (MNL_CB_ERROR, v)) ∧
      res_cq_parse_cb r x nlh w =
        (MNL_CB_ERROR,
          { out := w.out ++ (pre.map (fun p => (res_cq_line r x (mnl_attr_get_str a_name)
              (mnl_attr_get_u32 a_idx) p World.start).2.out)).flatten
            lookups := w.lookups ++ (pre.map (fun p => (res_cq_line r x
              (mnl_attr_get_str a_name) (mnl_attr_get_u32 a_idx) p
              World.start).2.lookups)).flatten })) := by
  constructor
  · intro a_table pre e post h_tab h_nested h_missing h_pre
    have h_line := res_cm_id_line_missing r x (mnl_attr_get_str a_name) (mnl_attr_get_u32 a_idx)
      e h_missing
    refine ⟨h_line, ?_⟩
    have h_ret : (res_cm_id_line r x (mnl_attr_get_str a_name) (mnl_attr_get_u32 a_idx) e
        World.start).1 ≠ MNL_CB_OK := by
      rw [h_line]; decide
    simp only [res_cm_id_parse_cb, h_idx, h_name, h_tab, h_nested]
    rw [for_each_nested_stop _ (res_cm_id_line_frame r x _ _) pre e post h_pre h_ret]
    simp [h_line, World.start]
  · intro a_table pre e post h_tab h_nested h_missing h_pre
    have h_line := res_cq_line_missing r x (mnl_attr_get_str a_name) (mnl_attr_get_u32 a_idx)
      e h_missing
    refine ⟨h_line, ?_⟩
    have h_ret : (res_cq_line r x (mnl_attr_get_str a_name) (mnl_attr_get_u32 a_idx) e
        World.start).1 ≠ MNL_CB_OK := by
      rw [h_line]; decide
    simp only [res_cq_parse_cb, h_idx, h_name, h_tab, h_nested]
    rw [for_each_nested_stop _ (res_cq_line_frame r x _ _) pre e post h_pre h_ret]
    simp [h_line, World.start]

/-- C1, amended, at a concrete response: a complete entry, then one without its state
attribute, then a complete entry. The callback returns MNL_CB_ERROR and the output is the one
record of the first entry. -/
theorem missing_required_aborts_witness :
    res_cm_id_parse_cb rd_plain sample_ext
      (sample_msg MNL_CB_OK RDMA_NLDEV_ATTR_RES_CM_ID
        [cm_entry_a, cm_entry_no_state, cm_entry_a]) World.start =
      (MNL_CB_ERROR,
        { out := [Out.print_link 0 "mlx5_0" 0, Out.res_print_uint "cm-idn" 0 none,
            Out.res_print_uint "lqpn" 0 none, Out.pr_out "state CONNECT ", Out.pr_out "ps TCP ",
            Out.res_print_uint "pid" 1234 (some ⟨[210, 4, 0, 0]⟩),
            Out.print_comm (some "myapp"), Out.pr_out "src-addr 10.0.0.1:5000 ",
            Out.pr_out "dst-addr 10.0.0.2:6000 ", Out.print_driver_table none, Out.newline]
          lookups := [1234] }) :=
  (((missing_required_aborts rd_plain sample_ext
    (sample_msg MNL_CB_OK RDMA_NLDEV_ATTR_RES_CM_ID [cm_entry_a, cm_entry_no_state, cm_entry_a])
    World.start ⟨[0, 0, 0, 0]⟩ ⟨[109, 108, 120, 53, 95, 48, 0]⟩ rfl rfl).1
    ⟨[]⟩ [cm_entry_a] cm_entry_no_state [cm_entry_a] rfl rfl (Or.inl rfl) (by decide)).2).trans
    (by decide)

/-- C2, at the failing input: the top-level parse of the message reported MNL_CB_ERROR after
the device index, the device name and the resource list had been stored in the table. Both
callbacks drop that result: they process the entry and return MNL_CB_OK. -/
theorem top_level_parse_error_dropped :
    (sample_msg MNL_CB_ERROR RDMA_NLDEV_ATTR_RES_CM_ID [cm_entry_a]).parse_ret = MNL_CB_ERROR ∧
    (res_cm_id_parse_cb rd_plain sample_ext
      (sample_msg MNL_CB_ERROR RDMA_NLDEV_ATTR_RES_CM_ID [cm_entry_a]) World.start).1 =
        MNL_CB_OK ∧
    (sample_msg MNL_CB_ERROR RDMA_NLDEV_ATTR_RES_CQ [cq_entry_c]).parse_ret = MNL_CB_ERROR ∧
    (res_cq_parse_cb rd_plain sample_ext
      (sample_msg MNL_CB_ERROR RDMA_NLDEV_ATTR_RES_CQ [cq_entry_c]) World.start).1 =
        MNL_CB_OK := by
  decide

/-- C3: a message whose top-level table lacks the device index, the device name or the
resource list of the queried kind makes the callback return MNL_CB_ERROR with the world
untouched: no entry is processed, nothing is printed, no name is looked up. -/
theorem envelope_missing_is_error (r : rd) (x : Ext) (nlh : nlmsghdr) (w : World) :
    ((nlh.tb RDMA_NLDEV_ATTR_DEV_INDEX = none ∨ nlh.tb RDMA_NLDEV_ATTR_DEV_NAME = none ∨
        nlh.tb RDMA_NLDEV_ATTR_RES_CM_ID = none) →
      res_cm_id_parse_cb r x nlh w = (MNL_CB_ERROR, w)) ∧
    ((nlh.tb RDMA_NLDEV_ATTR_DEV_INDEX = none ∨ nlh.tb RDMA_NLDEV_ATTR_DEV_NAME = none ∨
        nlh.tb RDMA_NLDEV_ATTR_RES_CQ = none) →
      res_cq_parse_cb r x nlh w = (MNL_CB_ERROR, w)) := by
  constructor
  · intro h
    cases h1 : nlh.tb RDMA_NLDEV_ATTR_DEV_INDEX with
    | none => simp only [res_cm_id_parse_cb, h1]
    | some a_idx =>
    cases h2 : nlh.tb RDMA_NLDEV_ATTR_DEV_NAME with
    | none => simp only [res_cm_id_parse_cb, h1, h2]
    | some a_name =>
    cases h3 : nlh.tb RDMA_NLDEV_ATTR_RES_CM_ID with
    | none => simp only [res_cm_id_parse_cb, h1, h2, h3]
    | some a_table => simp [h1, h2, h3] at h
  · intro h
    cases h1 : nlh.tb RDMA_NLDEV_ATTR_DEV_INDEX with
    | none => simp only [res_cq_parse_cb, h1]
    | some a_idx =>
    cases h2 : nlh.tb RDMA_NLDEV_ATTR_DEV_NAME with
    | none => simp only [res_cq_parse_cb, h1, h2]
    | some a_name =>
    cases h3 : nlh.tb RDMA_NLDEV_ATTR_RES_CQ with
    | none => simp only [res_cq_parse_cb, h1, h2, h3]
    | some a_table => simp [h1, h2, h3] at h

/-- C3, at a concrete message: a response that carries a connection-manager list, handed to
the completion-queue callback, is rejected with nothing printed. -/
theorem envelope_missing_is_error_witness :
    res_cq_parse_cb rd_plain sample_ext
      (sample_msg MNL_CB_OK RDMA_NLDEV_ATTR_RES_CM_ID [cm_entry_a]) World.start =
      (MNL_CB_ERROR, World.start) :=
  (envelope_missing_is_error rd_plain sample_ext
    (sample_msg MNL_CB_OK RDMA_NLDEV_ATTR_RES_CM_ID [cm_entry_a]) World.start).2
    (Or.inr (Or.inr rfl))

/-- C4: with a valid envelope, the callback runs the per-entry routine over the nested
entries in list order. If `e` is the first entry whose routine returns a value other than
MNL_CB_OK, the callback returns that value and its output and lookups are those of the
entries up to and including `e`, whatever follows `e`. If every entry returns MNL_CB_OK
(also when there is none), the callback returns MNL_CB_OK and its output is the
concatenation of the outputs of all entries. The return value and the output of one entry
are read off a run of its routine from `World.start`; the routine returns the same value and
appends the same output from any other world (res_cm_id_line_frame, res_cq_line_frame). -/
theorem parse_cb_runs_until_first_failure (r : rd) (x : Ext) (nlh : nlmsghdr) (w : World)
    (a_idx a_name : nlattr)
    (h_idx : nlh.tb RDMA_NLDEV_ATTR_DEV_INDEX = some a_idx)
    (h_name : nlh.tb RDMA_NLDEV_ATTR_DEV_NAME = some a_name) :
    (∀ a_table, nlh.tb RDMA_NLDEV_ATTR_RES_CM_ID = some a_table →
      (∀ pre e post, nlh.nested RDMA_NLDEV_ATTR_RES_CM_ID = pre ++ e :: post →
        (∀ p ∈ pre, (res_cm_id_line r x (mnl_attr_get_str a_name) (mnl_attr_get_u32 a_idx) p
          World.start).1 = MNL_CB_OK) →
        (res_cm_id_line r x (mnl_attr_get_str a_name) (mnl_attr_get_u32 a_idx) e
          World.start).1 ≠ MNL_CB_OK →
        res_cm_id_parse_cb r x nlh w =
          ((res_cm_id_line r x (mnl_attr_get_str a_name) (mnl_attr_get_u32 a_idx) e
              World.start).1,
            { out := w.out ++ ((pre ++ [e]).map (fun p => (res_cm_id_line r x
                (mnl_attr_get_str a_name) (mnl_attr_get_u32 a_idx) p World.start).2.out)).flatten
              lookups := w.lookups ++ ((pre ++ [e]).map (fun p => (res_cm_id_line r x
                (mnl_attr_get_str a_name) (mnl_attr_get_u32 a_idx) p
                World.start).2.lookups)).flatten })) ∧
      ((∀ p ∈ nlh.nested RDMA_NLDEV_ATTR_RES_CM_ID, (res_cm_id_line r x
          (mnl_attr_get_str a_name) (mnl_attr_get_u32 a_idx) p World.start).1 = MNL_CB_OK) →
        res_cm_id_parse_cb r x nlh w =
          (MNL_CB_OK,
            { out := w.out ++ ((nlh.nested RDMA_NLDEV_ATTR_RES_CM_ID).map (fun p =>
                (res_cm_id_line r x (mnl_attr_get_str a_name) (mnl_attr_get_u32 a_idx) p
                  World.start).2.out)).flatten
              lookups := w.lookups ++ ((nlh.nested RDMA_NLDEV_ATTR_RES_CM_ID).map (fun p =>
                (res_cm_id_line r x (mnl_attr_get_str a_name) (mnl_attr_get_u32 a_idx) p
                  World.start).2.lookups)).flatten }))) ∧
    (∀ a_table, nlh.tb RDMA_NLDEV_ATTR_RES_CQ = some a_table →
      (∀ pre e post, nlh.nested RDMA_NLDEV_ATTR_RES_CQ = pre ++ e :: post →
        (∀ p ∈ pre, (res_cq_line r x (mnl_attr_get_str a_name) (mnl_attr_get_u32 a_idx) p
          World.start).1 = MNL_CB_OK) →
        (res_cq_line r x (mnl_attr_get_str a_name) (mnl_attr_get_u32 a_idx) e
          World.start).1 ≠ MNL_CB_OK →
        res_cq_parse_cb r x nlh w =
          ((res_cq_line r x (mnl_attr_get_str a_name) (mnl_attr_get_u32 a_idx) e
              World.start).1,
            { out := w.out ++ ((pre ++ [e]).map (fun p => (res_cq_line r x
                (mnl_attr_get_str a_name) (mnl_attr_get_u32 a_idx) p World.start).2.out)).flatten
              lookups := w.lookups ++ ((pre ++ [e]).map (fun p => (res_cq_line r x
                (mnl_attr_get_str a_name) (mnl_attr_get_u32 a_idx) p
                World.start).2.lookups)).flatten })) ∧
      ((∀ p ∈ nlh.nested RDMA_NLDEV_ATTR_RES_CQ, (res_cq_line r x
          (mnl_attr_get_str a_name) (mnl_attr_get_u32 a_idx) p World.start).1 = MNL_CB_OK) →
        res_cq_parse_cb r x nlh w =
          (MNL_CB_OK,
            { out := w.out ++ ((nlh.nested RDMA_NLDEV_ATTR_RES_CQ).map (fun p =>
                (res_cq_line r x (mnl_attr_get_str a_name) (mnl_attr_get_u32 a_idx) p
                  World.start).2.out)).flatten
              lookups := w.lookups ++ ((nlh.nested RDMA_NLDEV_ATTR_RES_CQ).map (fun p =>
                (res_cq_line r x (mnl_attr_get_str a_name) (mnl_attr_get_u32 a_idx) p
                  World.start).2.lookups)).flatten }))) := by
  refine ⟨fun a_table h_tab => ⟨?_, ?_⟩, fun a_table h_tab => ⟨?_, ?_⟩⟩
  · intro pre e post h_nested h_pre h_e
    simp only [res_cm_id_parse_cb, h_idx, h_name, h_tab, h_nested]
    exact for_each_nested_stop _ (res_cm_id_line_frame r x _ _) pre e post h_pre h_e _ w
  · intro h_all
    simp only [res_cm_id_parse_cb, h_idx, h_name, h_tab]
    exact for_each_nested_all_ok _ (res_cm_id_line_frame r x _ _) _ h_all w
  · intro pre e post h_nested h_pre h_e
    simp only [res_cq_parse_cb, h_idx, h_name, h_tab, h_nested]
    exact for_each_nested_stop _ (res_cq_line_frame r x _ _) pre e post h_pre h_e _ w
  · intro h_all
    simp only [res_cq_parse_cb, h_idx, h_name, h_tab]
    exact for_each_nested_all_ok _ (res_cq_line_frame r x _ _) _ h_all w

/-- C4, at a concrete response: two completion-queue entries that render, then one without
its use count, then one more. The callback returns MNL_CB_ERROR and the output holds the
records of the first two entries only (ten output steps each). -/
theorem parse_cb_runs_until_first_failure_witness :
    (res_cq_parse_cb rd_plain sample_ext
      (sample_msg MNL_CB_OK RDMA_NLDEV_ATTR_RES_CQ
        [cq_entry_c, cq_entry_c, cq_entry_no_users, cq_entry_c]) World.start).1 =
        MNL_CB_ERROR ∧
    (res_cq_parse_cb rd_plain sample_ext
      (sample_msg MNL_CB_OK RDMA_NLDEV_ATTR_RES_CQ
        [cq_entry_c, cq_entry_c, cq_entry_no_users, cq_entry_c]) World.start).2.out.length =
        20 ∧
    (res_cq_parse_cb rd_plain sample_ext
      (sample_msg MNL_CB_OK RDMA_NLDEV_ATTR_RES_CQ
        [cq_entry_c, cq_entry_c, cq_entry_no_users, cq_entry_c]) World.start).2.lookups =
        [1234, 1234] := by
  have h := ((parse_cb_runs_until_first_failure rd_plain sample_ext
    (sample_msg MNL_CB_OK RDMA_NLDEV_ATTR_RES_CQ
      [cq_entry_c, cq_entry_c, cq_entry_no_users, cq_entry_c])
    World.start ⟨[0, 0, 0, 0]⟩ ⟨[109, 108, 120, 53, 95, 48, 0]⟩ rfl rfl).2 ⟨[]⟩ rfl).1
    [cq_entry_c, cq_entry_c] cq_entry_no_users [cq_entry_c] rfl (by decide) (by decide)
  rw [h]
  decide

/-! ## Claims about the decoders -/

/-- C5: cm_id_state_to_str maps the codes 0..10 to the eleven state names in table order (so
code 5 is "CONNECT") and every code from 11 on, in particular every other 8-bit code, to
"UNKNOWN". The function is total. -/
theorem cm_id_state_to_str_table :
    (List.range 11).map cm_id_state_to_str =
      ["IDLE", "ADDR_QUERY", "ADDR_RESOLVED", "ROUTE_QUERY", "ROUTE_RESOLVED", "CONNECT",
        "DISCONNECT", "ADDR_BOUND", "LISTEN", "DEVICE_REMOVAL", "DESTROYING"] ∧
    cm_id_state_to_str 5 = "CONNECT" ∧
    (∀ idx, 11 ≤ idx → cm_id_state_to_str idx = "UNKNOWN") := by
  refine ⟨by decide, by decide, fun idx h => ?_⟩
  have hlen : cm_id_states_str.length = 11 := rfl
  simp only [cm_id_state_to_str, hlen]
  rw [if_neg (by omega)]

/-- C6: cm_id_ps_to_str returns "IPoIB" for RDMA_PS_IPOIB and for RDMA_PS_IB, "TCP" for
RDMA_PS_TCP, "UDP" for RDMA_PS_UDP, and "---" for every other code. The function is total. -/
theorem cm_id_ps_to_str_table :
    cm_id_ps_to_str RDMA_PS_IPOIB = "IPoIB" ∧
    cm_id_ps_to_str RDMA_PS_IB = "IPoIB" ∧
    cm_id_ps_to_str RDMA_PS_TCP = "TCP" ∧
    cm_id_ps_to_str RDMA_PS_UDP = "UDP" ∧
    (∀ ps, ps ≠ RDMA_PS_IPOIB → ps ≠ RDMA_PS_IB → ps ≠ RDMA_PS_TCP → ps ≠ RDMA_PS_UDP →
      cm_id_ps_to_str ps = "---") := by
  refine ⟨by decide, by decide, by decide, by decide, fun ps h1 h2 h3 h4 => ?_⟩
  simp only [cm_id_ps_to_str, if_neg h1, if_neg h2, if_neg h3, if_neg h4]

theorem poll_ctx_to_str_unknown (idx : Nat) (h : 4 ≤ idx) : poll_ctx_to_str idx = "UNKNOWN" := by
  have hlen : poll_ctx_str.length = 4 := rfl
  simp only [poll_ctx_to_str, hlen]
  rw [if_neg (by omega)]

/-- C7: poll_ctx_to_str maps 0, 1, 2, 3 to "DIRECT", "SOFTIRQ", "WORKQUEUE",
"UNBOUND_WORKQUEUE" and every code from 4 on (99 for one) to "UNKNOWN". A completion-queue
entry whose nested parse succeeded, that has its required attributes, carries a poll-context
attribute with such a code and passes every filter check of res_cq_line is printed in text
mode as one record that contains the token `poll-ctx UNKNOWN `, and res_cq_line returns
MNL_CB_OK. -/
theorem poll_ctx_unknown_is_rendered :
    (poll_ctx_to_str 0 = "DIRECT" ∧ poll_ctx_to_str 1 = "SOFTIRQ" ∧
      poll_ctx_to_str 2 = "WORKQUEUE" ∧ poll_ctx_to_str 3 = "UNBOUND_WORKQUEUE" ∧
      poll_ctx_to_str 99 = "UNKNOWN" ∧
      (∀ idx, 4 ≤ idx → poll_ctx_to_str idx = "UNKNOWN")) ∧
    (∀ (r : rd) (x : Ext) (name : String) (idx : Nat) (e : nla_entry) (w : World)
        (a_cqe a_users a_poll : nlattr),
      e.parse_nested_ret = MNL_CB_OK →
      e.nla_line RDMA_NLDEV_ATTR_RES_CQE = some a_cqe →
      e.nla_line RDMA_NLDEV_ATTR_RES_USECNT = some a_users →
      (e.nla_line RDMA_NLDEV_ATTR_RES_PID ≠ none ∨
        e.nla_line RDMA_NLDEV_ATTR_RES_KERN_NAME ≠ none) →
      e.nla_line RDMA_NLDEV_ATTR_RES_POLL_CTX = some a_poll →
      4 ≤ mnl_attr_get_u8 a_poll →
      r.json_output = false →
      rd_check_is_filtered r "users" (mnl_attr_get_u64 a_users) = false →
      rd_check_is_string_filtered r "poll-ctx" "UNKNOWN" = false →
      rd_check_is_filtered r "pid"
        (assigned_u32 0 (e.nla_line RDMA_NLDEV_ATTR_RES_PID)) = false →
      rd_check_is_filtered r "cqn"
        (assigned_u32 0 (e.nla_line RDMA_NLDEV_ATTR_RES_CQN)) = false →
      rd_check_is_filtered r "ctxn"
        (assigned_u32 0 (e.nla_line RDMA_NLDEV_ATTR_RES_CTXN)) = false →
      (res_cq_line r x name idx e w).1 = MNL_CB_OK ∧
      ∃ record, (res_cq_line r x name idx e w).2.out = w.out ++ record ∧
        Out.pr_out "poll-ctx UNKNOWN " ∈ record ∧
        record.getLast? = some Out.newline) := by
  refine ⟨⟨by decide, by decide, by decide, by decide, by decide, poll_ctx_to_str_unknown⟩, ?_⟩
  intro r x name idx e w a_cqe a_users a_poll h1 hq hu h_owner h_poll h_code h_text f1 f2 f3 f4 f5
  have c0 := owner_present e h_owner
  have h_str : poll_ctx_to_str (assigned_u8 0 (e.nla_line RDMA_NLDEV_ATTR_RES_POLL_CTX)) =
      "UNKNOWN" := by
    rw [h_poll]; exact poll_ctx_to_str_unknown _ h_code
  have h_str2 : poll_ctx_to_str (assigned_u8 0 (some a_poll)) = "UNKNOWN" :=
    poll_ctx_to_str_unknown _ h_code
  have h_tok : "poll-ctx " ++ "UNKNOWN" ++ " " = "poll-ctx UNKNOWN " := by decide
  have h_ret : (res_cq_line r x name idx e w).1 = MNL_CB_OK := by
    simp only [res_cq_line, h1, hq, hu, ne_eq, not_true_eq_false, if_false, if_neg c0, f1,
      h_str, f2, f3, f4, f5, Bool.and_false, Bool.false_eq_true]
  refine ⟨h_ret, ?_⟩
  simp only [res_cq_line, h1, hq, hu, ne_eq, not_true_eq_false, if_false, if_neg c0, f1, h_str,
    f2, f3, f4, f5, Bool.and_false, Bool.false_eq_true]
  simp only [newline_out, print_driver_table_out, print_comm_out, res_print_uint_out,
    print_poll_ctx_out, print_dev_out, guarded_json_out, guarded_called_out, h_text, h_poll,
    h_str2, h_tok, List.append_assoc]
  refine ⟨_, rfl, ?_, ?_⟩
  · simp
  · simp

/-- C7, at a concrete entry: the completion-queue entry with poll context 99 is printed with
the token `poll-ctx UNKNOWN ` and res_cq_line returns MNL_CB_OK. -/
theorem poll_ctx_unknown_is_rendered_witness :
    (res_cq_line rd_plain sample_ext "mlx5_0" 0 cq_entry_c World.start).1 = MNL_CB_OK ∧
    ∃ record, (res_cq_line rd_plain sample_ext "mlx5_0" 0 cq_entry_c World.start).2.out =
        World.start.out ++ record ∧
      Out.pr_out "poll-ctx UNKNOWN " ∈ record ∧ record.getLast? = some Out.newline :=
  poll_ctx_unknown_is_rendered.2 rd_plain sample_ext "mlx5_0" 0 cq_entry_c World.start
    ⟨[0, 1, 0, 0]⟩ ⟨[2, 0, 0, 0, 0, 0, 0, 0]⟩ ⟨[99]⟩ rfl rfl rfl (Or.inl (by decide)) rfl
    (by decide) rfl rfl rfl rfl rfl rfl

/-! ## Socket addresses -/

theorem byte_at_lt (p : List Nat) (i : Nat) : byte_at p i < 256 :=
  Nat.mod_lt _ (by decide)

theorem toString_byte_length (n : Nat) (h : n < 256) : (toString n).length ≤ 3 :=
  Nat.repr_length n 3 (by decide) (by omega)

theorem inet_ntop4_text_eq (addr : List Nat) :
    inet_ntop4_text (sin_addr addr) =
      toString (byte_at addr 4) ++ "." ++ toString (byte_at addr 5) ++ "." ++
        toString (byte_at addr 6) ++ "." ++ toString (byte_at addr 7) := by
  simp [inet_ntop4_text, sin_addr, byte_at, Nat.mod_mod]

theorem inet_ntop4_text_length (src : List Nat) :
    (inet_ntop4_text src).length < INET6_ADDRSTRLEN := by
  have h0 := toString_byte_length _ (byte_at_lt src 0)
  have h1 := toString_byte_length _ (byte_at_lt src 1)
  have h2 := toString_byte_length _ (byte_at_lt src 2)
  have h3 := toString_byte_length _ (byte_at_lt src 3)
  have hdot : ".".length = 1 := rfl
  simp only [inet_ntop4_text, String.length_append, hdot, INET6_ADDRSTRLEN]
  omega

theorem ntohs_sin_port (addr : List Nat) :
    ntohs (sin_port addr) = 256 * byte_at addr 2 + byte_at addr 3 := by
  have h2 := byte_at_lt addr 2
  have h3 := byte_at_lt addr 3
  simp only [ntohs, sin_port]
  omega

theorem ss_ntop_inet (x : Ext) (nla : nlattr) (h : ss_family nla.payload = AF_INET) :
    ss_ntop x nla =
      Except.ok (toString (byte_at nla.payload 4) ++ "." ++ toString (byte_at nla.payload 5) ++
        "." ++ toString (byte_at nla.payload 6) ++ "." ++ toString (byte_at nla.payload 7),
        256 * byte_at nla.payload 2 + byte_at nla.payload 3) := by
  have hfit := inet_ntop4_text_length (sin_addr nla.payload)
  rw [inet_ntop4_text_eq] at hfit
  simp only [ss_ntop, mnl_attr_get_payload, h, inet_ntop, if_true, ntohs_sin_port,
    inet_ntop4_text_eq, if_pos hfit]

theorem ss_ntop_inet6 (x : Ext)
    (h6 : ∀ src, (x.inet_ntop6_text src).length < INET6_ADDRSTRLEN) (nla : nlattr)
    (h : ss_family nla.payload = AF_INET6) :
    ss_ntop x nla =
      Except.ok (x.inet_ntop6_text (sin6_addr nla.payload),
        256 * byte_at nla.payload 2 + byte_at nla.payload 3) := by
  have hne : ¬AF_INET6 = AF_INET := by decide
  simp only [ss_ntop, mnl_attr_get_payload, h, inet_ntop, if_true, if_neg hne,
    if_pos (h6 _), ntohs_sin_port]

theorem ss_ntop_other (x : Ext) (nla : nlattr) (h4 : ss_family nla.payload ≠ AF_INET)
    (h6 : ss_family nla.payload ≠ AF_INET6) :
    ss_ntop x nla = Except.error (-EINVAL) := by
  simp only [ss_ntop, mnl_attr_get_payload, if_neg h4, if_neg h6]

/-- C8: given that the textual form of an IPv6 address fits a buffer of INET6_ADDRSTRLEN bytes
(what libc promises for inet_ntop), ss_ntop succeeds exactly when the stored family is
AF_INET or AF_INET6 and returns -EINVAL for every other family. For AF_INET the address text
is the dotted-decimal form of the four address bytes; for AF_INET6 it is libc's text of the
sixteen address bytes; for both the port is 256 * b0 + b1 for the two port bytes b0, b1 in
memory order. -/
theorem ss_ntop_by_family (x : Ext)
    (h6 : ∀ src, (x.inet_ntop6_text src).length < INET6_ADDRSTRLEN) (nla : nlattr) :
    ((∃ res, ss_ntop x nla = Except.ok res) ↔
      (ss_family nla.payload = AF_INET ∨ ss_family nla.payload = AF_INET6)) ∧
    (ss_family nla.payload ≠ AF_INET → ss_family nla.payload ≠ AF_INET6 →
      ss_ntop x nla = Except.error (-EINVAL)) ∧
    (ss_family nla.payload = AF_INET →
      ss_ntop x nla =
        Except.ok (toString (byte_at nla.payload 4) ++ "." ++
          toString (byte_at nla.payload 5) ++ "." ++ toString (byte_at nla.payload 6) ++ "." ++
          toString (byte_at nla.payload 7),
          256 * byte_at nla.payload 2 + byte_at nla.payload 3)) ∧
    (ss_family nla.payload = AF_INET6 →
      ss_ntop x nla =
        Except.ok (x.inet_ntop6_text (sin6_addr nla.payload),
          256 * byte_at nla.payload 2 + byte_at nla.payload 3)) := by
  refine ⟨⟨?_, ?_⟩, ss_ntop_other x nla, ss_ntop_inet x nla, ss_ntop_inet6 x h6 nla⟩
  · rintro ⟨res, hres⟩
    by_cases h4 : ss_family nla.payload = AF_INET
    · exact Or.inl h4
    by_cases h6' : ss_family nla.payload = AF_INET6
    · exact Or.inr h6'
    rw [ss_ntop_other x nla h4 h6'] at hres
    cases hres
  · rintro (h | h)
    · exact ⟨_, ss_ntop_inet x nla h⟩
    · exact ⟨_, ss_ntop_inet6 x h6 nla h⟩

theorem sample_ext_inet_ntop6_fits (src : List Nat) :
    (sample_ext.inet_ntop6_text src).length < INET6_ADDRSTRLEN := by
  simp [sample_ext, hex_group, String.length, INET6_ADDRSTRLEN]

/-- C8, at concrete addresses: the stored address 10.0.0.1 port 5000 of family AF_INET
decodes to the text "10.0.0.1" and the port 5000 = 256 * 19 + 136, and an address of family 1
is refused with -EINVAL. -/
theorem ss_ntop_by_family_witness :
    ss_ntop sample_ext ⟨[2, 0, 19, 136, 10, 0, 0, 1]⟩ = Except.ok ("10.0.0.1", 5000) ∧
    ss_ntop sample_ext ⟨[1, 0, 47, 116, 109, 112, 0, 0]⟩ = Except.error (-22) :=
  ⟨(ss_ntop_by_family sample_ext sample_ext_inet_ntop6_fits
      ⟨[2, 0, 19, 136, 10, 0, 0, 1]⟩).2.2.1 rfl,
    (ss_ntop_by_family sample_ext sample_ext_inet_ntop6_fits
      ⟨[1, 0, 47, 116, 109, 112, 0, 0]⟩).2.1 (by decide) (by decide)⟩

/-! ## Skipped connection-manager entries -/

theorem res_cm_id_addr_other_family (r : rd) (x : Ext) (addr_key port_key : String)
    (a : nlattr) (h4 : ss_family a.payload ≠ AF_INET) (h6 : ss_family a.payload ≠ AF_INET6) :
    res_cm_id_addr r x addr_key port_key (some a) = none := by
  simp only [res_cm_id_addr, ss_ntop_other x a h4 h6]

/-- C9: a connection-manager entry whose nested parse succeeded, that has its required
attributes and carries a source or a destination socket address of a family other than
AF_INET and AF_INET6 leaves the world as it was (nothing printed, no name looked up) and
makes res_cm_id_line return MNL_CB_OK; hence the callback treats a response that holds the
entry exactly like the same response without it: the other entries are processed and
printed. -/
theorem other_family_entry_is_skipped (r : rd) (x : Ext) (e : nla_entry)
    (a_state a_ps : nlattr)
    (h_parse : e.parse_nested_ret = MNL_CB_OK)
    (h_state : e.nla_line RDMA_NLDEV_ATTR_RES_STATE = some a_state)
    (h_ps : e.nla_line RDMA_NLDEV_ATTR_RES_PS = some a_ps)
    (h_owner : e.nla_line RDMA_NLDEV_ATTR_RES_PID ≠ none ∨
      e.nla_line RDMA_NLDEV_ATTR_RES_KERN_NAME ≠ none)
    (h_family :
      (∃ a, e.nla_line RDMA_NLDEV_ATTR_RES_SRC_ADDR = some a ∧
        ss_family a.payload ≠ AF_INET ∧ ss_family a.payload ≠ AF_INET6) ∨
      (∃ a, e.nla_line RDMA_NLDEV_ATTR_RES_DST_ADDR = some a ∧
        ss_family a.payload ≠ AF_INET ∧ ss_family a.payload ≠ AF_INET6)) :
    (∀ name idx w, res_cm_id_line r x name idx e w = (MNL_CB_OK, w)) ∧
    (∀ (nlh : nlmsghdr) (pre post : List nla_entry) (w : World),
      nlh.nested RDMA_NLDEV_ATTR_RES_CM_ID = pre ++ e :: post →
      res_cm_id_parse_cb r x nlh w =
        res_cm_id_parse_cb r x { nlh with nested := fun _ => pre ++ post } w) := by
  have h_line : ∀ name idx w, res_cm_id_line r x name idx e w = (MNL_CB_OK, w) := by
    intro name idx w
    simp only [res_cm_id_line, h_parse, h_state, h_ps, ne_eq, not_true_eq_false, if_false,
      if_neg (owner_present e h_owner)]
    rw [ite_eq_left_iff]; intro _
    rw [ite_eq_left_iff]; intro _
    rw [ite_eq_left_iff]; intro _
    rw [ite_eq_left_iff]; intro _
    rw [ite_eq_left_iff]; intro _
    rcases h_family with ⟨a, ha, h4, h6⟩ | ⟨a, ha, h4, h6⟩
    · rw [ha, res_cm_id_addr_other_family r x _ _ a h4 h6]
    · rw [ha, res_cm_id_addr_other_family r x _ _ a h4 h6]
      cases res_cm_id_addr r x "src-addr" "src-port"
        (e.nla_line RDMA_NLDEV_ATTR_RES_SRC_ADDR) <;> rfl
  refine ⟨h_line, ?_⟩
  intro nlh pre post w h_nested
  cases h1 : nlh.tb RDMA_NLDEV_ATTR_DEV_INDEX with
  | none => simp only [res_cm_id_parse_cb, h1]
  | some a_idx =>
  cases h2 : nlh.tb RDMA_NLDEV_ATTR_DEV_NAME with
  | none => simp only [res_cm_id_parse_cb, h1, h2]
  | some a_name =>
  cases h3 : nlh.tb RDMA_NLDEV_ATTR_RES_CM_ID with
  | none => simp only [res_cm_id_parse_cb, h1, h2, h3]
  | some a_table =>
    simp only [res_cm_id_parse_cb, h1, h2, h3, h_nested]
    exact for_each_nested_skip _ pre e post (h_line _ _) w

/-- C9, at a concrete response: between two complete entries sits one whose source address
has family 1. The callback returns MNL_CB_OK and prints the two records of the complete
entries (eleven output steps each). -/
theorem other_family_entry_is_skipped_witness :
    res_cm_id_parse_cb rd_plain sample_ext
      (sample_msg MNL_CB_OK RDMA_NLDEV_ATTR_RES_CM_ID
        [cm_entry_a, cm_entry_af_unix, cm_entry_a]) World.start =
      res_cm_id_parse_cb rd_plain sample_ext
        (sample_msg MNL_CB_OK RDMA_NLDEV_ATTR_RES_CM_ID [cm_entry_a, cm_entry_a])
        World.start ∧
    (res_cm_id_parse_cb rd_plain sample_ext
      (sample_msg MNL_CB_OK RDMA_NLDEV_ATTR_RES_CM_ID
        [cm_entry_a, cm_entry_af_unix, cm_entry_a]) World.start).1 = MNL_CB_OK ∧
    (res_cm_id_parse_cb rd_plain sample_ext
      (sample_msg MNL_CB_OK RDMA_NLDEV_ATTR_RES_CM_ID
        [cm_entry_a, cm_entry_af_unix, cm_entry_a]) World.start).2.out.length = 22 := by
  have h := (other_family_entry_is_skipped rd_plain sample_ext cm_entry_af_unix ⟨[5]⟩
    ⟨[6, 1, 0, 0]⟩ rfl rfl rfl (Or.inl (by decide))
    (Or.inl ⟨⟨[1, 0, 47, 116, 109, 112, 0, 0]⟩, rfl, by decide, by decide⟩)).2
    (sample_msg MNL_CB_OK RDMA_NLDEV_ATTR_RES_CM_ID [cm_entry_a, cm_entry_af_unix, cm_entry_a])
    [cm_entry_a] [cm_entry_a] World.start rfl
  refine ⟨h.trans (by decide), ?_, ?_⟩
  · rw [h]; decide
  · rw [h]; decide

/-- C10, counterexample: the query targets port 1 and has no filter; the entry is complete
and carries a port-index attribute with value 0, which differs from the target port. It is
not skipped: res_cm_id_line prints its record. -/
theorem port_mismatch_counterexample :
    (cm_entry_on_port [0, 0, 0, 0]).nla_line RDMA_NLDEV_ATTR_PORT_INDEX = some ⟨[0, 0, 0, 0]⟩ ∧
    mnl_attr_get_u32 ⟨[0, 0, 0, 0]⟩ ≠ rd_port1.port_idx ∧
    (res_cm_id_line rd_port1 sample_ext "mlx5_0" 0 (cm_entry_on_port [0, 0, 0, 0])
      World.start).2.out ≠ [] ∧
    Out.newline ∈ (res_cm_id_line rd_port1 sample_ext "mlx5_0" 0
      (cm_entry_on_port [0, 0, 0, 0]) World.start).2.out := by
  decide

/-- C10, amended: a connection-manager entry whose nested parse succeeded, that has its
required attributes and carries a port-index attribute whose value is not 0 and differs from
the target port of the query is skipped, for every target port, every such tagged value and
every filter set: res_cm_id_line returns MNL_CB_OK, prints nothing and looks no name up. -/
theorem port_mismatch_is_skipped (r : rd) (x : Ext) (name : String) (idx : Nat)
    (e : nla_entry) (w : World) (a_state a_ps a_port : nlattr)
    (h_parse : e.parse_nested_ret = MNL_CB_OK)
    (h_state : e.nla_line RDMA_NLDEV_ATTR_RES_STATE = some a_state)
    (h_ps : e.nla_line RDMA_NLDEV_ATTR_RES_PS = some a_ps)
    (h_owner : e.nla_line RDMA_NLDEV_ATTR_RES_PID ≠ none ∨
      e.nla_line RDMA_NLDEV_ATTR_RES_KERN_NAME ≠ none)
    (h_port : e.nla_line RDMA_NLDEV_ATTR_PORT_INDEX = some a_port)
    (h_nonzero : mnl_attr_get_u32 a_port ≠ 0)
    (h_differs : mnl_attr_get_u32 a_port ≠ r.port_idx) :
    res_cm_id_line r x name idx e w = (MNL_CB_OK, w) := by
  have c1 : ¬assigned_u32 0 (e.nla_line RDMA_NLDEV_ATTR_PORT_INDEX) = 0 ∧
      ¬assigned_u32 0 (e.nla_line RDMA_NLDEV_ATTR_PORT_INDEX) = r.port_idx := by
    rw [h_port]; exact ⟨h_nonzero, h_differs⟩
  simp only [res_cm_id_line, h_parse, h_state, h_ps, ne_eq, not_true_eq_false, if_false,
    if_neg (owner_present e h_owner), if_pos c1]

/-- C10, amended, at a concrete entry: the query targets port 1 and the complete entry is
tagged with port 2. -/
theorem port_mismatch_is_skipped_witness :
    res_cm_id_line rd_port1 sample_ext "mlx5_0" 0 (cm_entry_on_port [2, 0, 0, 0]) World.start =
      (MNL_CB_OK, World.start) :=
  port_mismatch_is_skipped rd_port1 sample_ext "mlx5_0" 0 (cm_entry_on_port [2, 0, 0, 0])
    World.start ⟨[5]⟩ ⟨[6, 1, 0, 0]⟩ ⟨[2, 0, 0, 0]⟩ rfl rfl rfl (Or.inl (by decide)) rfl
    (by decide) (by decide)

/-! ## Every run of a per-entry routine either prints the whole record or nothing -/

theorem res_cq_line_cases (r : rd) (x : Ext) (name : String) (idx : Nat) (e : nla_entry)
    (w : World) :
    (res_cq_checks r e = true ∧
      res_cq_line r x name idx e w =
        (MNL_CB_OK,
          { out := w.out ++ res_cq_record r x name idx e
            lookups := w.lookups ++ owner_lookups e })) ∨
    (res_cq_checks r e = false ∧ (res_cq_line r x name idx e w).2.out = w.out ∧
      ((res_cq_line r x name idx e w).2.lookups = w.lookups ∨
        (res_cq_line r x name idx e w).2.lookups = w.lookups ++ owner_lookups e)) := by
  by_cases h1 : e.parse_nested_ret = MNL_CB_OK
  swap
  · refine Or.inr ⟨by simp [res_cq_checks, h1], ?_, Or.inl ?_⟩ <;>
      rw [res_cq_line_parse_error r x name idx e h1]
  cases hq : e.nla_line RDMA_NLDEV_ATTR_RES_CQE with
  | none =>
    refine Or.inr ⟨by simp [res_cq_checks, hq], ?_, Or.inl ?_⟩ <;>
      rw [res_cq_line_missing r x name idx e (Or.inl hq)]
  | some a_cqe =>
  cases hu : e.nla_line RDMA_NLDEV_ATTR_RES_USECNT with
  | none =>
    refine Or.inr ⟨by simp [res_cq_checks, hu], ?_, Or.inl ?_⟩ <;>
      rw [res_cq_line_missing r x name idx e (Or.inr (Or.inl hu))]
  | some a_users =>
  simp only [res_cq_line, h1, hq, hu, ne_eq, not_true_eq_false, if_false]
  by_cases c0 : ((e.nla_line RDMA_NLDEV_ATTR_RES_PID).isNone &&
      (e.nla_line RDMA_NLDEV_ATTR_RES_KERN_NAME).isNone) = true
  · simp only [if_pos c0]
    exact Or.inr ⟨by simp [res_cq_checks, c0], trivial, Or.inl trivial⟩
  simp only [if_neg c0]
  by_cases c1 : rd_check_is_filtered r "users" (mnl_attr_get_u64 a_users) = true
  · simp only [if_pos c1]
    exact Or.inr ⟨by simp [res_cq_checks, hu, assigned_u64, c1], trivial, Or.inl trivial⟩
  simp only [if_neg c1]
  by_cases c2 : ((e.nla_line RDMA_NLDEV_ATTR_RES_POLL_CTX).isSome &&
      rd_check_is_string_filtered r "poll-ctx"
        (poll_ctx_to_str (assigned_u8 0 (e.nla_line RDMA_NLDEV_ATTR_RES_POLL_CTX)))) = true
  · simp only [if_pos c2]
    exact Or.inr ⟨by simp [res_cq_checks, c2], trivial, Or.inl trivial⟩
  simp only [if_neg c2]
  by_cases c3 : rd_check_is_filtered r "pid"
      (assigned_u32 0 (e.nla_line RDMA_NLDEV_ATTR_RES_PID)) = true
  · simp only [if_pos c3]
    exact Or.inr ⟨by simp [res_cq_checks, c3], guarded_called_out _ _ _, Or.inr (guarded_called_lookups _ _ _)⟩
  simp only [if_neg c3]
  by_cases c4 : rd_check_is_filtered r "cqn"
      (assigned_u32 0 (e.nla_line RDMA_NLDEV_ATTR_RES_CQN)) = true
  · simp only [if_pos c4]
    exact Or.inr ⟨by simp [res_cq_checks, c4], guarded_called_out _ _ _, Or.inr (guarded_called_lookups _ _ _)⟩
  simp only [if_neg c4]
  by_cases c5 : rd_check_is_filtered r "ctxn"
      (assigned_u32 0 (e.nla_line RDMA_NLDEV_ATTR_RES_CTXN)) = true
  · simp only [if_pos c5]
    exact Or.inr ⟨by simp [res_cq_checks, c5], guarded_called_out _ _ _, Or.inr (guarded_called_lookups _ _ _)⟩
  simp only [if_neg c5]
  refine Or.inl ⟨?_, ?_⟩
  · have hu2 : assigned_u64 0 (some a_users) = mnl_attr_get_u64 a_users := rfl
    simp only [Bool.not_eq_true] at c0 c1 c2 c3 c4 c5
    simp only [res_cq_checks, h1, hq, hu, hu2, c0, c1, c2, c3, c4, c5, Option.isSome_some,
      decide_True, Bool.not_false, Bool.and_self]
  · refine Prod.ext rfl (World.eq_of _ _ ?_ ?_)
    · simp only [newline_out, print_driver_table_out, print_comm_out, res_print_uint_out,
        print_poll_ctx_out, print_dev_out, guarded_json_out, guarded_called_out,
        List.append_assoc, res_cq_record, hq, hu, assigned_u32, assigned_u64, owner_comm,
        List.cons_append, List.nil_append]
    · simp only [newline_lookups, print_driver_table_lookups, print_comm_lookups,
        res_print_uint_lookups, print_poll_ctx_lookups, print_dev_lookups, guarded_json_lookups,
        guarded_called_lookups, owner_lookups]

theorem res_cm_id_print_addr_shows (r : rd) (key : String) (a : Option (String × Nat))
    (w : World) :
    (res_cm_id_print_addr r key a w).out = w.out ++ a.toList.map (ipaddr_out r key) := by
  rw [res_cm_id_print_addr_out]
  rfl

theorem res_cm_id_line_cases (r : rd) (x : Ext) (name : String) (idx : Nat) (e : nla_entry)
    (w : World) :
    (res_cm_id_checks r x e = true ∧
      res_cm_id_line r x name idx e w =
        (MNL_CB_OK,
          { out := w.out ++ res_cm_id_record r x name idx e
            lookups := w.lookups ++ owner_lookups e })) ∨
    (res_cm_id_checks r x e = false ∧ (res_cm_id_line r x name idx e w).2.out = w.out ∧
      ((res_cm_id_line r x name idx e w).2.lookups = w.lookups ∨
        (res_cm_id_line r x name idx e w).2.lookups = w.lookups ++ owner_lookups e)) := by
  by_cases h1 : e.parse_nested_ret = MNL_CB_OK
  swap
  · refine Or.inr ⟨by simp [res_cm_id_checks, h1], ?_, Or.inl ?_⟩ <;>
      rw [res_cm_id_line_parse_error r x name idx e h1]
  cases hs : e.nla_line RDMA_NLDEV_ATTR_RES_STATE with
  | none =>
    refine Or.inr ⟨by simp [res_cm_id_checks, hs], ?_, Or.inl ?_⟩ <;>
      rw [res_cm_id_line_missing r x name idx e (Or.inl hs)]
  | some a_state =>
  cases hp : e.nla_line RDMA_NLDEV_ATTR_RES_PS with
  | none =>
    refine Or.inr ⟨by simp [res_cm_id_checks, hp], ?_, Or.inl ?_⟩ <;>
      rw [res_cm_id_line_missing r x name idx e (Or.inr (Or.inl hp))]
  | some a_ps =>
  have hs2 : assigned_u8 0 (some a_state) = mnl_attr_get_u8 a_state := rfl
  have hp2 : assigned_u32 0 (some a_ps) = mnl_attr_get_u32 a_ps := rfl
  simp only [res_cm_id_line, h1, hs, hp, ne_eq, not_true_eq_false, if_false]
  by_cases c0 : ((e.nla_line RDMA_NLDEV_ATTR_RES_PID).isNone &&
      (e.nla_line RDMA_NLDEV_ATTR_RES_KERN_NAME).isNone) = true
  · simp only [if_pos c0]
    exact Or.inr ⟨by simp [res_cm_id_checks, c0], trivial, Or.inl trivial⟩
  simp only [if_neg c0]
  by_cases c1 : ¬assigned_u32 0 (e.nla_line RDMA_NLDEV_ATTR_PORT_INDEX) = 0 ∧
      ¬assigned_u32 0 (e.nla_line RDMA_NLDEV_ATTR_PORT_INDEX) = r.port_idx
  · simp only [if_pos c1]
    exact Or.inr ⟨by simp [res_cm_id_checks, c1], trivial, Or.inl trivial⟩
  simp only [if_neg c1]
  by_cases c2 : ((e.nla_line RDMA_NLDEV_ATTR_RES_LQPN).isSome &&
      rd_check_is_filtered r "lqpn" (assigned_u32 0 (e.nla_line RDMA_NLDEV_ATTR_RES_LQPN))) = true
  · simp only [if_pos c2]
    exact Or.inr ⟨by simp [res_cm_id_checks, c2], trivial, Or.inl trivial⟩
  simp only [if_neg c2]
  by_cases c3 : ((e.nla_line RDMA_NLDEV_ATTR_RES_TYPE).isSome &&
      rd_check_is_string_filtered r "qp-type"
        (x.qp_types_to_str (assigned_u8 0 (e.nla_line RDMA_NLDEV_ATTR_RES_TYPE)))) = true
  · simp only [if_pos c3]
    exact Or.inr ⟨by simp [res_cm_id_checks, c3], trivial, Or.inl trivial⟩
  simp only [if_neg c3]
  by_cases c4 : rd_check_is_string_filtered r "ps" (cm_id_ps_to_str (mnl_attr_get_u32 a_ps)) = true
  · simp only [if_pos c4]
    exact Or.inr ⟨by simp [res_cm_id_checks, hp, hp2, c4], trivial, Or.inl trivial⟩
  simp only [if_neg c4]
  by_cases c5 : rd_check_is_string_filtered r "state"
      (cm_id_state_to_str (mnl_attr_get_u8 a_state)) = true
  · simp only [if_pos c5]
    exact Or.inr ⟨by simp [res_cm_id_checks, hs, hs2, c5], trivial, Or.inl trivial⟩
  simp only [if_neg c5]
  cases hsrc : res_cm_id_addr r x "src-addr" "src-port"
      (e.nla_line RDMA_NLDEV_ATTR_RES_SRC_ADDR) with
  | none => exact Or.inr ⟨by simp [res_cm_id_checks, hsrc], rfl, Or.inl rfl⟩
  | some src =>
  cases hdst : res_cm_id_addr r x "dst-addr" "dst-port"
      (e.nla_line RDMA_NLDEV_ATTR_RES_DST_ADDR) with
  | none => exact Or.inr ⟨by simp [res_cm_id_checks, hdst], rfl, Or.inl rfl⟩
  | some dst =>
  simp only []
  by_cases c6 : rd_check_is_filtered r "pid"
      (assigned_u32 0 (e.nla_line RDMA_NLDEV_ATTR_RES_PID)) = true
  · simp only [if_pos c6]
    exact Or.inr ⟨by simp [res_cm_id_checks, c6], guarded_called_out _ _ _, Or.inr (guarded_called_lookups _ _ _)⟩
  simp only [if_neg c6]
  by_cases c7 : rd_check_is_filtered r "cm-idn"
      (assigned_u32 0 (e.nla_line RDMA_NLDEV_ATTR_RES_CM_IDN)) = true
  · simp only [if_pos c7]
    exact Or.inr ⟨by simp [res_cm_id_checks, c7], guarded_called_out _ _ _, Or.inr (guarded_called_lookups _ _ _)⟩
  simp only [if_neg c7]
  refine Or.inl ⟨?_, ?_⟩
  · simp only [Bool.not_eq_true] at c0 c2 c3 c4 c5 c6 c7
    have c1b : (decide (assigned_u32 0 (e.nla_line RDMA_NLDEV_ATTR_PORT_INDEX) ≠ 0) &&
        decide (assigned_u32 0 (e.nla_line RDMA_NLDEV_ATTR_PORT_INDEX) ≠ r.port_idx)) =
        false := by
      simpa using c1
    simp only [res_cm_id_checks, h1, hs, hp, hs2, hp2, hsrc, hdst, c0, c1b, c2, c3, c4, c5, c6,
      c7, Option.isSome_some, decide_True, Bool.not_false, Bool.and_self]
  · refine Prod.ext rfl (World.eq_of _ _ ?_ ?_)
    · simp only [newline_out, print_driver_table_out, res_cm_id_print_addr_shows,
        print_comm_out, res_print_uint_out, print_ps_out, print_cm_id_state_out,
        guarded_qp_type_out, print_link_out, guarded_json_out, guarded_called_out,
        List.append_assoc, res_cm_id_record, hs, hp, hs2, hp2, hsrc, hdst, owner_comm,
        Option.join, Option.some_bind, id_eq, List.cons_append, List.nil_append]
    · simp only [newline_lookups, print_driver_table_lookups, res_cm_id_print_addr_lookups,
        print_comm_lookups, res_print_uint_lookups, print_ps_lookups, print_cm_id_state_lookups,
        guarded_qp_type_lookups, print_link_lookups, guarded_json_lookups,
        guarded_called_lookups, owner_lookups]

theorem res_cq_record_ne_nil (r : rd) (x : Ext) (name : String) (idx : Nat) (e : nla_entry) :
    res_cq_record r x name idx e ≠ [] := by
  simp [res_cq_record]

theorem res_cm_id_record_ne_nil (r : rd) (x : Ext) (name : String) (idx : Nat)
    (e : nla_entry) : res_cm_id_record r x name idx e ≠ [] := by
  simp [res_cm_id_record]

theorem res_cq_record_last (r : rd) (x : Ext) (name : String) (idx : Nat) (e : nla_entry) :
    (res_cq_record r x name idx e).getLast? = some Out.newline := by
  unfold res_cq_record
  rw [List.getLast?_append_of_ne_nil _ (by simp)]
  rfl

theorem res_cm_id_record_last (r : rd) (x : Ext) (name : String) (idx : Nat) (e : nla_entry) :
    (res_cm_id_record r x name idx e).getLast? = some Out.newline := by
  unfold res_cm_id_record
  rw [List.getLast?_append_of_ne_nil _ (by simp)]
  rfl

theorem res_cq_line_of_checks (r : rd) (x : Ext) (name : String) (idx : Nat) (e : nla_entry)
    (w : World) (h : res_cq_checks r e = true) :
    res_cq_line r x name idx e w =
      (MNL_CB_OK,
        { out := w.out ++ res_cq_record r x name idx e
          lookups := w.lookups ++ owner_lookups e }) := by
  rcases res_cq_line_cases r x name idx e w with ⟨_, h2⟩ | ⟨h1, _, _⟩
  · exact h2
  · rw [h] at h1; cases h1

theorem res_cm_id_line_of_checks (r : rd) (x : Ext) (name : String) (idx : Nat)
    (e : nla_entry) (w : World) (h : res_cm_id_checks r x e = true) :
    res_cm_id_line r x name idx e w =
      (MNL_CB_OK,
        { out := w.out ++ res_cm_id_record r x name idx e
          lookups := w.lookups ++ owner_lookups e }) := by
  rcases res_cm_id_line_cases r x name idx e w with ⟨_, h2⟩ | ⟨h1, _, _⟩
  · exact h2
  · rw [h] at h1; cases h1

theorem res_cq_line_rendered_iff (r : rd) (x : Ext) (name : String) (idx : Nat)
    (e : nla_entry) (w : World) :
    (res_cq_line r x name idx e w).2.out ≠ w.out ↔ res_cq_checks r e = true := by
  rcases res_cq_line_cases r x name idx e w with ⟨h1, h2⟩ | ⟨h1, h2, _⟩
  · rw [h2]
    simp [h1, res_cq_record_ne_nil]
  · simp [h1, h2]

theorem res_cm_id_line_rendered_iff (r : rd) (x : Ext) (name : String) (idx : Nat)
    (e : nla_entry) (w : World) :
    (res_cm_id_line r x name idx e w).2.out ≠ w.out ↔ res_cm_id_checks r x e = true := by
  rcases res_cm_id_line_cases r x name idx e w with ⟨h1, h2⟩ | ⟨h1, h2, _⟩
  · rw [h2]
    simp [h1, res_cm_id_record_ne_nil]
  · simp [h1, h2]

/-! ## Claims about filters -/

theorem res_cm_id_addr_passed (r : rd) (x : Ext) (addr_key port_key : String) (a : nlattr)
    (h : (res_cm_id_addr r x addr_key port_key (some a)).isSome = true) :
    ∃ addr port, ss_ntop x a = Except.ok (addr, port) ∧
      rd_check_is_string_filtered r addr_key addr = false ∧
      rd_check_is_filtered r port_key port = false ∧
      res_cm_id_addr r x addr_key port_key (some a) = some (some (addr, port)) := by
  unfold res_cm_id_addr at h ⊢
  cases hn : ss_ntop x a with
  | error c => simp [hn] at h
  | ok p =>
    obtain ⟨addr, port⟩ := p
    simp only [hn] at h ⊢
    by_cases f1 : rd_check_is_string_filtered r addr_key addr = true
    · simp [f1] at h
    by_cases f2 : rd_check_is_filtered r port_key port = true
    · simp [f1, f2] at h
    simp only [Bool.not_eq_true] at f1 f2
    exact ⟨addr, port, rfl, f1, f2, by simp [f1, f2]⟩

/-- C11, counterexample: the numeric filters of the query reject every value for "lqpn",
"src-port" and "dst-port"; the entry has its required attributes and carries neither an lqpn
nor an address attribute. res_cm_id_line prints its record: none of the three filters was
evaluated on it. -/
theorem numeric_filters_counterexample :
    (∀ v, rd_check_is_filtered rd_reject_lqpn_ports "lqpn" v = true) ∧
    (∀ v, rd_check_is_filtered rd_reject_lqpn_ports "src-port" v = true) ∧
    (∀ v, rd_check_is_filtered rd_reject_lqpn_ports "dst-port" v = true) ∧
    res_cm_id_line rd_reject_lqpn_ports sample_ext "mlx5_0" 0 cm_entry_bare World.start =
      (MNL_CB_OK,
        { out := [Out.print_link 0 "mlx5_0" 0, Out.res_print_uint "cm-idn" 0 none,
            Out.res_print_uint "lqpn" 0 none, Out.pr_out "state CONNECT ", Out.pr_out "ps TCP ",
            Out.res_print_uint "pid" 1234 (some ⟨[210, 4, 0, 0]⟩),
            Out.print_comm (some "myapp"), Out.print_driver_table none, Out.newline]
          lookups := [1234] }) :=
  ⟨fun _ => rfl, fun _ => rfl, fun _ => rfl, by decide⟩

/-- C11, amended: for every entry that res_cm_id_line renders, the "pid" and "cm-idn" filters
accept the entry's pid and cm-idn (each 0 when its attribute is absent), the "lqpn" filter
accepts the lqpn of an entry that carries the lqpn attribute, and the "src-port" ("dst-port")
filter accepts the decoded port of an entry that carries the source (destination) address
attribute. -/
theorem numeric_filters_on_rendered (r : rd) (x : Ext) (name : String) (idx : Nat)
    (e : nla_entry) (w : World)
    (h_rendered : (res_cm_id_line r x name idx e w).2.out ≠ w.out) :
    rd_check_is_filtered r "pid"
      (assigned_u32 0 (e.nla_line RDMA_NLDEV_ATTR_RES_PID)) = false ∧
    rd_check_is_filtered r "cm-idn"
      (assigned_u32 0 (e.nla_line RDMA_NLDEV_ATTR_RES_CM_IDN)) = false ∧
    (∀ a, e.nla_line RDMA_NLDEV_ATTR_RES_LQPN = some a →
      rd_check_is_filtered r "lqpn" (mnl_attr_get_u32 a) = false) ∧
    (∀ a, e.nla_line RDMA_NLDEV_ATTR_RES_SRC_ADDR = some a →
      ∃ addr port, ss_ntop x a = Except.ok (addr, port) ∧
        rd_check_is_filtered r "src-port" port = false) ∧
    (∀ a, e.nla_line RDMA_NLDEV_ATTR_RES_DST_ADDR = some a →
      ∃ addr port, ss_ntop x a = Except.ok (addr, port) ∧
        rd_check_is_filtered r "dst-port" port = false) := by
  have h := (res_cm_id_line_rendered_iff r x name idx e w).1 h_rendered
  simp only [res_cm_id_checks, Bool.and_eq_true, Bool.not_eq_true', Bool.and_eq_false_imp,
    decide_eq_true_eq] at h
  obtain ⟨⟨⟨⟨⟨⟨⟨⟨⟨⟨⟨⟨_, _⟩, _⟩, _⟩, _⟩, h_lqpn⟩, _⟩, _⟩, _⟩, h_src⟩, h_dst⟩, h_pid⟩, h_cm⟩ := h
  refine ⟨h_pid, h_cm, ?_, ?_, ?_⟩
  · intro a ha
    rw [ha] at h_lqpn
    exact h_lqpn rfl
  · intro a ha
    rw [ha] at h_src
    obtain ⟨addr, port, h1, _, h3, _⟩ := res_cm_id_addr_passed r x _ _ a h_src
    exact ⟨addr, port, h1, h3⟩
  · intro a ha
    rw [ha] at h_dst
    obtain ⟨addr, port, h1, _, h3, _⟩ := res_cm_id_addr_passed r x _ _ a h_dst
    exact ⟨addr, port, h1, h3⟩

/-- C11, amended, at a concrete entry: under the filter `pid 1234` the complete entry of
process 1234 is rendered; its pid passes the filter and its source address decodes to a port
that the "src-port" filter accepts. -/
theorem numeric_filters_on_rendered_witness :
    rd_check_is_filtered rd_pid_1234 "pid" 1234 = false ∧
    ∃ addr port, ss_ntop sample_ext ⟨[2, 0, 19, 136, 10, 0, 0, 1]⟩ = Except.ok (addr, port) ∧
      rd_check_is_filtered rd_pid_1234 "src-port" port = false :=
  ⟨(numeric_filters_on_rendered rd_pid_1234 sample_ext "mlx5_0" 0 cm_entry_a World.start
      (by decide)).1,
    (numeric_filters_on_rendered rd_pid_1234 sample_ext "mlx5_0" 0 cm_entry_a World.start
      (by decide)).2.2.2.1 ⟨[2, 0, 19, 136, 10, 0, 0, 1]⟩ rfl⟩

/-- C12: for every connection-manager entry whose nested parse succeeded and that has its
required attributes, the string filters "ps" and "state" are asked about the decoded texts
cm_id_ps_to_str(ps) and cm_id_state_to_str(state); when either filter rejects its decoded
text, res_cm_id_line returns MNL_CB_OK and leaves the world as it was, whether or not the
entry passed the port check and the filters before them. -/
theorem string_filters_use_decoded_text (r : rd) (x : Ext) (name : String) (idx : Nat)
    (e : nla_entry) (w : World) (a_state a_ps : nlattr)
    (h_parse : e.parse_nested_ret = MNL_CB_OK)
    (h_state : e.nla_line RDMA_NLDEV_ATTR_RES_STATE = some a_state)
    (h_ps : e.nla_line RDMA_NLDEV_ATTR_RES_PS = some a_ps)
    (h_owner : e.nla_line RDMA_NLDEV_ATTR_RES_PID ≠ none ∨
      e.nla_line RDMA_NLDEV_ATTR_RES_KERN_NAME ≠ none)
    (h_reject :
      rd_check_is_string_filtered r "ps" (cm_id_ps_to_str (mnl_attr_get_u32 a_ps)) = true ∨
      rd_check_is_string_filtered r "state"
        (cm_id_state_to_str (mnl_attr_get_u8 a_state)) = true) :
    res_cm_id_line r x name idx e w = (MNL_CB_OK, w) := by
  simp only [res_cm_id_line, h_parse, h_state, h_ps, ne_eq, not_true_eq_false, if_false,
    if_neg (owner_present e h_owner)]
  rw [ite_eq_left_iff]; intro _
  rw [ite_eq_left_iff]; intro _
  rw [ite_eq_left_iff]; intro _
  rw [ite_eq_left_iff]; intro c4
  rw [ite_eq_left_iff]; intro c5
  rcases h_reject with h | h
  · exact absurd h c4
  · exact absurd h c5

/-- C12, at concrete queries: the entry with state code 5 decodes to "CONNECT". Under the
filter `state LISTEN` it is skipped with nothing printed; under the filter `state CONNECT`
the same entry is rendered, so the filter is compared with the decoded text. -/
theorem string_filters_use_decoded_text_witness :
    res_cm_id_line rd_state_listen sample_ext "mlx5_0" 0 cm_entry_a World.start =
      (MNL_CB_OK, World.start) ∧
    Out.pr_out "state CONNECT " ∈
      (res_cm_id_line rd_state_connect sample_ext "mlx5_0" 0 cm_entry_a World.start).2.out :=
  ⟨string_filters_use_decoded_text rd_state_listen sample_ext "mlx5_0" 0 cm_entry_a World.start
      ⟨[5]⟩ ⟨[6, 1, 0, 0]⟩ rfl rfl rfl (Or.inl (by decide)) (Or.inr (by decide)),
    by decide⟩

/-! ## The generated entry points -/

theorem RES_FUNC_build_failed {σ : Type} (ops : RdOps σ) (command : Cmd) (callback : ParseCb)
    (valid_filters : Option (List filters)) (strict_port : Bool) (s : σ × List Call)
    (h : (ops.rd_build_filter valid_filters s.1).1 ≠ 0) :
    RES_FUNC ops command callback valid_filters strict_port s =
      ((ops.rd_build_filter valid_filters s.1).1,
        ((ops.rd_build_filter valid_filters s.1).2,
          s.2 ++ [Call.rd_build_filter valid_filters])) := by
  simp only [RES_FUNC, if_pos h]

/-- C13: for each of the five entry points that RES_FUNC generates, when rd_build_filter on
the kind's valid-filter table returns a non-zero code, the entry point returns that code, the
state of the tool is the one rd_build_filter left, and rd_build_filter is the only call made:
neither rd_set_arg_to_devname nor rd_exec_dev nor rd_exec_link is invoked. -/
theorem filter_setup_failure_stops {σ : Type} (ops : RdOps σ) (s : σ × List Call) :
    ((ops.rd_build_filter (some pd_valid_filters) s.1).1 ≠ 0 →
      res_pd ops s =
        ((ops.rd_build_filter (some pd_valid_filters) s.1).1,
          ((ops.rd_build_filter (some pd_valid_filters) s.1).2,
            s.2 ++ [Call.rd_build_filter (some pd_valid_filters)]))) ∧
    ((ops.rd_build_filter (some mr_valid_filters) s.1).1 ≠ 0 →
      res_mr ops s =
        ((ops.rd_build_filter (some mr_valid_filters) s.1).1,
          ((ops.rd_build_filter (some mr_valid_filters) s.1).2,
            s.2 ++ [Call.rd_build_filter (some mr_valid_filters)]))) ∧
    ((ops.rd_build_filter (some cq_valid_filters) s.1).1 ≠ 0 →
      res_cq ops s =
        ((ops.rd_build_filter (some cq_valid_filters) s.1).1,
          ((ops.rd_build_filter (some cq_valid_filters) s.1).2,
            s.2 ++ [Call.rd_build_filter (some cq_valid_filters)]))) ∧
    ((ops.rd_build_filter (some cm_id_valid_filters) s.1).1 ≠ 0 →
      res_cm_id ops s =
        ((ops.rd_build_filter (some cm_id_valid_filters) s.1).1,
          ((ops.rd_build_filter (some cm_id_valid_filters) s.1).2,
            s.2 ++ [Call.rd_build_filter (some cm_id_valid_filters)]))) ∧
    ((ops.rd_build_filter (some qp_valid_filters) s.1).1 ≠ 0 →
      res_qp ops s =
        ((ops.rd_build_filter (some qp_valid_filters) s.1).1,
          ((ops.rd_build_filter (some qp_valid_filters) s.1).2,
            s.2 ++ [Call.rd_build_filter (some qp_valid_filters)]))) :=
  ⟨RES_FUNC_build_failed ops _ _ _ _ s, RES_FUNC_build_failed ops _ _ _ _ s,
    RES_FUNC_build_failed ops _ _ _ _ s, RES_FUNC_build_failed ops _ _ _ _ s,
    RES_FUNC_build_failed ops _ _ _ _ s⟩

/-- C13, at concrete tool functions: building the filter fails with -EINVAL; res_cq returns
-22 after the one call of rd_build_filter, while with a filter that builds the same entry
point goes on to resolve the device name and to run the query. -/
theorem filter_setup_failure_stops_witness :
    res_cq (sample_ops true) (0, []) =
      (-22, (1, [Call.rd_build_filter (some cq_valid_filters)])) ∧
    res_cq (sample_ops false) (0, []) =
      (0, (3, [Call.rd_build_filter (some cq_valid_filters), Call.rd_set_arg_to_devname,
        Call.rd_exec_dev
          { command := Cmd.RDMA_NLDEV_CMD_RES_CQ_GET, callback := ParseCb.res_cq_parse_cb }])) :=
  ⟨(filter_setup_failure_stops (sample_ops true) (0, [])).2.2.1 (by decide), by decide⟩

/-! ## Claims about the printed record -/

/-- C14, counterexample: the completion-queue entry carries a poll context and a context
number. Its record shows the derived-string field `poll-ctx` before the numeric identifier
`ctxn`. -/
theorem field_order_counterexample :
    (res_cq_line rd_plain sample_ext "mlx5_0" 0 cq_entry_ctxn World.start).2.out =
      [Out.print_dev 0 "mlx5_0", Out.res_print_uint "cqn" 3 (some ⟨[3, 0, 0, 0]⟩),
        Out.res_print_uint "cqe" 256 (some ⟨[0, 1, 0, 0]⟩),
        Out.res_print_uint "users" 2 (some ⟨[2, 0, 0, 0, 0, 0, 0, 0]⟩),
        Out.pr_out "poll-ctx UNKNOWN ",
        Out.res_print_uint "ctxn" 7 (some ⟨[7, 0, 0, 0]⟩),
        Out.res_print_uint "pid" 1234 (some ⟨[210, 4, 0, 0]⟩),
        Out.print_comm (some "myapp"), Out.print_driver_table none, Out.newline] := by
  decide

/-- C14, amended: whatever res_cm_id_line prints for an entry is nothing or, after the
opening of the JSON array in JSON mode, the steps: link identity, cm-idn, lqpn, qp-type (when
the attribute is present), state, ps, pid, comm, src-addr and dst-addr (when present), driver
table, line end. Whatever res_cq_line prints is nothing or: device identity, cqn, cqe, users,
poll-ctx (when present), ctxn, pid, comm, driver table, line end; there the numeric
identifier ctxn follows the derived-string field poll-ctx. -/
theorem field_order (r : rd) (x : Ext) (name : String) (idx : Nat) (e : nla_entry)
    (w : World) :
    ((res_cm_id_line r x name idx e w).2.out = w.out ∨
      (res_cm_id_line r x name idx e w).2.out = w.out ++
        ((if r.json_output then [Out.jsonw_start_array] else []) ++
        [Out.print_link idx name (assigned_u32 0 (e.nla_line RDMA_NLDEV_ATTR_PORT_INDEX)),
         Out.res_print_uint "cm-idn" (assigned_u32 0 (e.nla_line RDMA_NLDEV_ATTR_RES_CM_IDN))
           (e.nla_line RDMA_NLDEV_ATTR_RES_CM_IDN),
         Out.res_print_uint "lqpn" (assigned_u32 0 (e.nla_line RDMA_NLDEV_ATTR_RES_LQPN))
           (e.nla_line RDMA_NLDEV_ATTR_RES_LQPN)] ++
        (if (e.nla_line RDMA_NLDEV_ATTR_RES_TYPE).isSome then
            [if r.json_output then
                Out.jsonw_string_field "qp-type"
                  (x.qp_types_to_str (assigned_u8 0 (e.nla_line RDMA_NLDEV_ATTR_RES_TYPE)))
              else
                Out.pr_out ("qp-type " ++
                  x.qp_types_to_str (assigned_u8 0 (e.nla_line RDMA_NLDEV_ATTR_RES_TYPE)) ++
                  " ")]
          else []) ++
        [if r.json_output then
            Out.jsonw_string_field "state"
              (cm_id_state_to_str (assigned_u8 0 (e.nla_line RDMA_NLDEV_ATTR_RES_STATE)))
          else
            Out.pr_out ("state " ++
              cm_id_state_to_str (assigned_u8 0 (e.nla_line RDMA_NLDEV_ATTR_RES_STATE)) ++ " "),
         if r.json_output then
            Out.jsonw_string_field "ps"
              (cm_id_ps_to_str (assigned_u32 0 (e.nla_line RDMA_NLDEV_ATTR_RES_PS)))
          else
            Out.pr_out ("ps " ++
              cm_id_ps_to_str (assigned_u32 0 (e.nla_line RDMA_NLDEV_ATTR_RES_PS)) ++ " "),
         Out.res_print_uint "pid" (assigned_u32 0 (e.nla_line RDMA_NLDEV_ATTR_RES_PID))
           (e.nla_line RDMA_NLDEV_ATTR_RES_PID),
         Out.print_comm (owner_comm x e)] ++
        (res_cm_id_addr r x "src-addr" "src-port"
          (e.nla_line RDMA_NLDEV_ATTR_RES_SRC_ADDR)).join.toList.map
            (ipaddr_out r "src-addr") ++
        (res_cm_id_addr r x "dst-addr" "dst-port"
          (e.nla_line RDMA_NLDEV_ATTR_RES_DST_ADDR)).join.toList.map
            (ipaddr_out r "dst-addr") ++
        [Out.print_driver_table (e.nla_line RDMA_NLDEV_ATTR_DRIVER),
         Out.newline])) ∧
    ((res_cq_line r x name idx e w).2.out = w.out ∨
      (res_cq_line r x name idx e w).2.out = w.out ++
        ((if r.json_output then [Out.jsonw_start_array] else []) ++
        [Out.print_dev idx name,
         Out.res_print_uint "cqn" (assigned_u32 0 (e.nla_line RDMA_NLDEV_ATTR_RES_CQN))
           (e.nla_line RDMA_NLDEV_ATTR_RES_CQN),
         Out.res_print_uint "cqe" (assigned_u32 0 (e.nla_line RDMA_NLDEV_ATTR_RES_CQE))
           (e.nla_line RDMA_NLDEV_ATTR_RES_CQE),
         Out.res_print_uint "users" (assigned_u64 0 (e.nla_line RDMA_NLDEV_ATTR_RES_USECNT))
           (e.nla_line RDMA_NLDEV_ATTR_RES_USECNT)] ++
        (if (e.nla_line RDMA_NLDEV_ATTR_RES_POLL_CTX).isNone then []
          else [if r.json_output then
              Out.jsonw_string_field "poll-ctx"
                (poll_ctx_to_str (assigned_u8 0 (e.nla_line RDMA_NLDEV_ATTR_RES_POLL_CTX)))
            else
              Out.pr_out ("poll-ctx " ++
                poll_ctx_to_str (assigned_u8 0 (e.nla_line RDMA_NLDEV_ATTR_RES_POLL_CTX)) ++
                " ")]) ++
        [Out.res_print_uint "ctxn" (assigned_u32 0 (e.nla_line RDMA_NLDEV_ATTR_RES_CTXN))
           (e.nla_line RDMA_NLDEV_ATTR_RES_CTXN),
         Out.res_print_uint "pid" (assigned_u32 0 (e.nla_line RDMA_NLDEV_ATTR_RES_PID))
           (e.nla_line RDMA_NLDEV_ATTR_RES_PID),
         Out.print_comm (owner_comm x e),
         Out.print_driver_table (e.nla_line RDMA_NLDEV_ATTR_DRIVER),
         Out.newline])) := by
  constructor
  · rcases res_cm_id_line_cases r x name idx e w with ⟨_, h2⟩ | ⟨_, h2, _⟩
    · right; rw [h2]; rfl
    · left; exact h2
  · rcases res_cq_line_cases r x name idx e w with ⟨_, h2⟩ | ⟨_, h2, _⟩
    · right; rw [h2]; rfl
    · left; exact h2

/-- C17: per-entry output is all or nothing. For every entry, query and world, either some
check of the routine fails and nothing is printed, or every check passes, the routine returns
MNL_CB_OK and exactly one record is appended: it is complete and ends with the line end. No
step of output comes before the last check has passed. -/
theorem output_is_all_or_nothing (r : rd) (x : Ext) (name : String) (idx : Nat)
    (e : nla_entry) (w : World) :
    ((res_cm_id_checks r x e = false ∧ (res_cm_id_line r x name idx e w).2.out = w.out) ∨
      (res_cm_id_checks r x e = true ∧ (res_cm_id_line r x name idx e w).1 = MNL_CB_OK ∧
        (res_cm_id_line r x name idx e w).2.out = w.out ++ res_cm_id_record r x name idx e ∧
        res_cm_id_record r x name idx e ≠ [] ∧
        (res_cm_id_record r x name idx e).getLast? = some Out.newline)) ∧
    ((res_cq_checks r e = false ∧ (res_cq_line r x name idx e w).2.out = w.out) ∨
      (res_cq_checks r e = true ∧ (res_cq_line r x name idx e w).1 = MNL_CB_OK ∧
        (res_cq_line r x name idx e w).2.out = w.out ++ res_cq_record r x name idx e ∧
        res_cq_record r x name idx e ≠ [] ∧
        (res_cq_record r x name idx e).getLast? = some Out.newline)) := by
  constructor
  · rcases res_cm_id_line_cases r x name idx e w with ⟨h1, h2⟩ | ⟨h1, h2, _⟩
    · right
      rw [h2]
      exact ⟨h1, rfl, rfl, res_cm_id_record_ne_nil r x name idx e,
        res_cm_id_record_last r x name idx e⟩
    · left; exact ⟨h1, h2⟩
  · rcases res_cq_line_cases r x name idx e w with ⟨h1, h2⟩ | ⟨h1, h2, _⟩
    · right
      rw [h2]
      exact ⟨h1, rfl, rfl, res_cq_record_ne_nil r x name idx e,
        res_cq_record_last r x name idx e⟩
    · left; exact ⟨h1, h2⟩

/-- C15: for every connection-manager entry that res_cm_id_line renders in text mode, the
record contains the token `state S ` with S = cm_id_state_to_str(state), the token `ps P `
with P = cm_id_ps_to_str(ps), for a source (destination) address attribute that decodes to
the text A and the port N the token `src-addr A:N ` (`dst-addr A:N `) with N in decimal, and
for an entry with a pid and no kernel name the calls of the pid printer with that pid and of
the comm printer with the looked-up name. -/
theorem text_record_tokens (r : rd) (x : Ext) (name : String) (idx : Nat) (e : nla_entry)
    (w : World) (a_state a_ps : nlattr)
    (h_rendered : (res_cm_id_line r x name idx e w).2.out ≠ w.out)
    (h_text : r.json_output = false)
    (h_state : e.nla_line RDMA_NLDEV_ATTR_RES_STATE = some a_state)
    (h_ps : e.nla_line RDMA_NLDEV_ATTR_RES_PS = some a_ps) :
    ∃ record, (res_cm_id_line r x name idx e w).2.out = w.out ++ record ∧
      Out.pr_out ("state " ++ cm_id_state_to_str (mnl_attr_get_u8 a_state) ++ " ") ∈ record ∧
      Out.pr_out ("ps " ++ cm_id_ps_to_str (mnl_attr_get_u32 a_ps) ++ " ") ∈ record ∧
      (∀ a, e.nla_line RDMA_NLDEV_ATTR_RES_SRC_ADDR = some a →
        ∃ addr port, ss_ntop x a = Except.ok (addr, port) ∧
          Out.pr_out ("src-addr " ++ addr ++ ":" ++ toString port ++ " ") ∈ record) ∧
      (∀ a, e.nla_line RDMA_NLDEV_ATTR_RES_DST_ADDR = some a →
        ∃ addr port, ss_ntop x a = Except.ok (addr, port) ∧
          Out.pr_out ("dst-addr " ++ addr ++ ":" ++ toString port ++ " ") ∈ record) ∧
      (∀ a_pid, e.nla_line RDMA_NLDEV_ATTR_RES_PID = some a_pid →
        e.nla_line RDMA_NLDEV_ATTR_RES_KERN_NAME = none →
        Out.res_print_uint "pid" (mnl_attr_get_u32 a_pid) (some a_pid) ∈ record ∧
        Out.print_comm (x.get_task_name (mnl_attr_get_u32 a_pid)) ∈ record) := by
  have h := (res_cm_id_line_rendered_iff r x name idx e w).1 h_rendered
  have h_line := res_cm_id_line_of_checks r x name idx e w h
  simp only [res_cm_id_checks, Bool.and_eq_true, Bool.not_eq_true', Bool.and_eq_false_imp,
    decide_eq_true_eq] at h
  obtain ⟨⟨⟨⟨⟨⟨⟨⟨⟨⟨⟨⟨_, _⟩, _⟩, _⟩, _⟩, _⟩, _⟩, _⟩, _⟩, h_src⟩, h_dst⟩, _⟩, _⟩ := h
  refine ⟨res_cm_id_record r x name idx e, by rw [h_line], ?_, ?_, ?_, ?_, ?_⟩
  · simp [res_cm_id_record, h_text, h_state, assigned_u8]
  · simp [res_cm_id_record, h_text, h_ps, assigned_u32]
  · intro a ha
    rw [ha] at h_src
    obtain ⟨addr, port, h1, _, _, h4⟩ := res_cm_id_addr_passed r x _ _ a h_src
    refine ⟨addr, port, h1, ?_⟩
    simp [res_cm_id_record, ha, h4, ipaddr_out, h_text]
  · intro a ha
    rw [ha] at h_dst
    obtain ⟨addr, port, h1, _, _, h4⟩ := res_cm_id_addr_passed r x _ _ a h_dst
    refine ⟨addr, port, h1, ?_⟩
    simp [res_cm_id_record, ha, h4, ipaddr_out, h_text]
  · intro a_pid hpid hk
    constructor
    · simp [res_cm_id_record, hpid, assigned_u32]
    · simp [res_cm_id_record, owner_comm, hpid, hk, assigned_u32, get_task_name]

/-- C15, at the concrete entry with state code 5, port space TCP, pid 1234, source
10.0.0.1:5000 and destination 10.0.0.2:6000: the record contains `state CONNECT `, `ps TCP `,
`src-addr 10.0.0.1:5000 ` and `dst-addr 10.0.0.2:6000 `, the pid printer is handed 1234 and
the comm printer the looked-up name "myapp". -/
theorem text_record_tokens_witness :
    ∃ record,
      (res_cm_id_line rd_plain sample_ext "mlx5_0" 0 cm_entry_a World.start).2.out =
        World.start.out ++ record ∧
      Out.pr_out "state CONNECT " ∈ record ∧ Out.pr_out "ps TCP " ∈ record ∧
      Out.pr_out "src-addr 10.0.0.1:5000 " ∈ record ∧
      Out.pr_out "dst-addr 10.0.0.2:6000 " ∈ record ∧
      Out.res_print_uint "pid" 1234 (some ⟨[210, 4, 0, 0]⟩) ∈ record ∧
      Out.print_comm (some "myapp") ∈ record := by
  obtain ⟨record, h_out, h_state, h_ps, h_src, h_dst, h_owner⟩ :=
    text_record_tokens rd_plain sample_ext "mlx5_0" 0 cm_entry_a World.start ⟨[5]⟩
      ⟨[6, 1, 0, 0]⟩ (by decide) rfl rfl rfl
  obtain ⟨src_addr, src_port, h_src_ok, h_src_in⟩ := h_src ⟨[2, 0, 19, 136, 10, 0, 0, 1]⟩ rfl
  obtain ⟨dst_addr, dst_port, h_dst_ok, h_dst_in⟩ := h_dst ⟨[2, 0, 23, 112, 10, 0, 0, 2]⟩ rfl
  have h_src_eq : ss_ntop sample_ext ⟨[2, 0, 19, 136, 10, 0, 0, 1]⟩ =
      Except.ok ("10.0.0.1", 5000) := rfl
  have h_dst_eq : ss_ntop sample_ext ⟨[2, 0, 23, 112, 10, 0, 0, 2]⟩ =
      Except.ok ("10.0.0.2", 6000) := rfl
  rw [h_src_eq] at h_src_ok
  rw [h_dst_eq] at h_dst_ok
  injection h_src_ok with h_src_ok
  injection h_src_ok with h1 h2
  injection h_dst_ok with h_dst_ok
  injection h_dst_ok with h3 h4
  subst h1 h2 h3 h4
  exact ⟨record, h_out, h_state, h_ps, h_src_in, h_dst_in,
    (h_owner ⟨[210, 4, 0, 0]⟩ rfl rfl).1, (h_owner ⟨[210, 4, 0, 0]⟩ rfl rfl).2⟩

theorem res_cm_id_line_lookups (r : rd) (x : Ext) (name : String) (idx : Nat) (e : nla_entry)
    (w : World) :
    (res_cm_id_line r x name idx e w).2.lookups = w.lookups ∨
      (res_cm_id_line r x name idx e w).2.lookups = w.lookups ++ owner_lookups e := by
  rcases res_cm_id_line_cases r x name idx e w with ⟨_, h2⟩ | ⟨_, _, h3⟩
  · right; rw [h2]
  · exact h3

theorem res_cq_line_lookups (r : rd) (x : Ext) (name : String) (idx : Nat) (e : nla_entry)
    (w : World) :
    (res_cq_line r x name idx e w).2.lookups = w.lookups ∨
      (res_cq_line r x name idx e w).2.lookups = w.lookups ++ owner_lookups e := by
  rcases res_cq_line_cases r x name idx e w with ⟨_, h2⟩ | ⟨_, _, h3⟩
  · right; rw [h2]
  · exact h3

theorem owner_lookups_without_pid (e : nla_entry)
    (h : e.nla_line RDMA_NLDEV_ATTR_RES_PID = none) : owner_lookups e = [] := by
  simp [owner_lookups, h]

theorem print_comm_mem_cm_id_record (r : rd) (x : Ext) (name : String) (idx : Nat)
    (e : nla_entry) (s : Option String) :
    Out.print_comm s ∈ res_cm_id_record r x name idx e ↔ s = owner_comm x e := by
  cases hj : r.json_output <;>
    cases (e.nla_line RDMA_NLDEV_ATTR_RES_TYPE).isSome <;>
    simp [res_cm_id_record, ipaddr_out, hj]

theorem print_comm_mem_cq_record (r : rd) (x : Ext) (name : String) (idx : Nat)
    (e : nla_entry) (s : Option String) :
    Out.print_comm s ∈ res_cq_record r x name idx e ↔ s = owner_comm x e := by
  cases hj : r.json_output <;>
    cases (e.nla_line RDMA_NLDEV_ATTR_RES_POLL_CTX).isNone <;>
    simp [res_cq_record, hj]

/-- C16: owner-name selection in res_cm_id_line and res_cq_line. Without a pid attribute the
process-name lookup is never made, on any path. In a rendered record print_comm is called
exactly with: the kernel-name string when the entry carries a kernel name (with or without a
pid; with a pid the lookup has been made and its result is overridden), and otherwise, for
an entry with a pid, the result of the lookup for that pid, which may be NULL. -/
theorem owner_name_selection (r : rd) (x : Ext) (name : String) (idx : Nat) (e : nla_entry)
    (w : World) :
    (e.nla_line RDMA_NLDEV_ATTR_RES_PID = none →
      (res_cm_id_line r x name idx e w).2.lookups = w.lookups ∧
      (res_cq_line r x name idx e w).2.lookups = w.lookups) ∧
    ((res_cm_id_line r x name idx e w).2.out ≠ w.out →
      ∃ record, (res_cm_id_line r x name idx e w).2.out = w.out ++ record ∧
        (∀ a_kern, e.nla_line RDMA_NLDEV_ATTR_RES_KERN_NAME = some a_kern →
          ∀ s, Out.print_comm s ∈ record ↔ s = some (mnl_attr_get_str a_kern)) ∧
        (∀ a_pid, e.nla_line RDMA_NLDEV_ATTR_RES_PID = some a_pid →
          (e.nla_line RDMA_NLDEV_ATTR_RES_KERN_NAME = none →
            ∀ s, Out.print_comm s ∈ record ↔ s = x.get_task_name (mnl_attr_get_u32 a_pid)) ∧
          (res_cm_id_line r x name idx e w).2.lookups =
            w.lookups ++ [mnl_attr_get_u32 a_pid])) ∧
    ((res_cq_line r x name idx e w).2.out ≠ w.out →
      ∃ record, (res_cq_line r x name idx e w).2.out = w.out ++ record ∧
        (∀ a_kern, e.nla_line RDMA_NLDEV_ATTR_RES_KERN_NAME = some a_kern →
          ∀ s, Out.print_comm s ∈ record ↔ s = some (mnl_attr_get_str a_kern)) ∧
        (∀ a_pid, e.nla_line RDMA_NLDEV_ATTR_RES_PID = some a_pid →
          (e.nla_line RDMA_NLDEV_ATTR_RES_KERN_NAME = none →
            ∀ s, Out.print_comm s ∈ record ↔ s = x.get_task_name (mnl_attr_get_u32 a_pid)) ∧
          (res_cq_line r x name idx e w).2.lookups =
            w.lookups ++ [mnl_attr_get_u32 a_pid])) := by
  refine ⟨fun h_pid => ⟨?_, ?_⟩, fun h_r => ?_, fun h_r => ?_⟩
  · rcases res_cm_id_line_lookups r x name idx e w with h | h
    · exact h
    · rw [h, owner_lookups_without_pid e h_pid, List.append_nil]
  · rcases res_cq_line_lookups r x name idx e w with h | h
    · exact h
    · rw [h, owner_lookups_without_pid e h_pid, List.append_nil]
  · have h := (res_cm_id_line_rendered_iff r x name idx e w).1 h_r
    have h_line := res_cm_id_line_of_checks r x name idx e w h
    refine ⟨res_cm_id_record r x name idx e, by rw [h_line], ?_, ?_⟩
    · intro a_kern hk s
      rw [print_comm_mem_cm_id_record]
      simp [owner_comm, hk]
    · intro a_pid hp
      refine ⟨fun hk s => ?_, ?_⟩
      · rw [print_comm_mem_cm_id_record]
        simp [owner_comm, hk, hp, assigned_u32, get_task_name]
      · rw [h_line]
        simp [owner_lookups, hp, assigned_u32]
  · have h := (res_cq_line_rendered_iff r x name idx e w).1 h_r
    have h_line := res_cq_line_of_checks r x name idx e w h
    refine ⟨res_cq_record r x name idx e, by rw [h_line], ?_, ?_⟩
    · intro a_kern hk s
      rw [print_comm_mem_cq_record]
      simp [owner_comm, hk]
    · intro a_pid hp
      refine ⟨fun hk s => ?_, ?_⟩
      · rw [print_comm_mem_cq_record]
        simp [owner_comm, hk, hp, assigned_u32, get_task_name]
      · rw [h_line]
        simp [owner_lookups, hp, assigned_u32]

/-- C16, at concrete entries: a kernel-owned entry makes no lookup and hands "nvme" to
print_comm; an entry with pid 1234 and the kernel name "nvme" looks 1234 up and still hands
"nvme" to print_comm. -/
theorem owner_name_selection_witness :
    (res_cm_id_line rd_plain sample_ext "mlx5_0" 0 cm_entry_kernel World.start).2.lookups =
      World.start.lookups ∧
    (∃ record,
      (res_cm_id_line rd_plain sample_ext "mlx5_0" 0 cm_entry_both_owners World.start).2.out =
        World.start.out ++ record ∧
      (∀ s, Out.print_comm s ∈ record ↔ s = some "nvme") ∧
      (res_cm_id_line rd_plain sample_ext "mlx5_0" 0 cm_entry_both_owners
        World.start).2.lookups = World.start.lookups ++ [1234]) := by
  refine ⟨((owner_name_selection rd_plain sample_ext "mlx5_0" 0 cm_entry_kernel
    World.start).1 rfl).1, ?_⟩
  obtain ⟨record, h_out, h_kern, h_pid⟩ :=
    (owner_name_selection rd_plain sample_ext "mlx5_0" 0 cm_entry_both_owners
      World.start).2.1 (by decide)
  exact ⟨record, h_out, h_kern ⟨[110, 118, 109, 101, 0]⟩ rfl,
    (h_pid ⟨[210, 4, 0, 0]⟩ rfl).2⟩

theorem fst_ite_eq (c : Prop) [Decidable c] (a b : Int × World) (k : Int) (ha : a.1 = k)
    (hb : b.1 = k) : (if c then a else b).1 = k := by
  split <;> assumption

theorem res_cq_line_returns_ok (r : rd) (x : Ext) (name : String) (idx : Nat) (e : nla_entry)
    (w : World) (a_cqe a_users : nlattr)
    (h_parse : e.parse_nested_ret = MNL_CB_OK)
    (h_cqe : e.nla_line RDMA_NLDEV_ATTR_RES_CQE = some a_cqe)
    (h_users : e.nla_line RDMA_NLDEV_ATTR_RES_USECNT = some a_users)
    (h_owner : e.nla_line RDMA_NLDEV_ATTR_RES_PID ≠ none ∨
      e.nla_line RDMA_NLDEV_ATTR_RES_KERN_NAME ≠ none) :
    (res_cq_line r x name idx e w).1 = MNL_CB_OK := by
  simp only [res_cq_line, h_parse, h_cqe, h_users, ne_eq, not_true_eq_false, if_false,
    if_neg (owner_present e h_owner)]
  refine fst_ite_eq _ _ _ _ rfl ?_
  refine fst_ite_eq _ _ _ _ rfl ?_
  refine fst_ite_eq _ _ _ _ rfl ?_
  refine fst_ite_eq _ _ _ _ rfl ?_
  exact fst_ite_eq _ _ _ _ rfl rfl

/-- C18: the exact acceptance condition of res_cq_line. For a completion-queue entry whose
nested parse succeeded and whose required attributes are present, res_cq_line returns
MNL_CB_OK, and it renders the entry if and only if the numeric filters accept users, pid, cqn
and ctxn (pid, cqn and ctxn being 0 when their attribute is absent) and, when a poll-context
attribute is present, the "poll-ctx" string filter accepts poll_ctx_to_str of its code.
Without a poll-context attribute the string filter is not consulted: the routine gives the
same result under any other string filter. -/
theorem res_cq_line_acceptance (r : rd) (x : Ext) (name : String) (idx : Nat) (e : nla_entry)
    (w : World) (a_cqe a_users : nlattr)
    (h_parse : e.parse_nested_ret = MNL_CB_OK)
    (h_cqe : e.nla_line RDMA_NLDEV_ATTR_RES_CQE = some a_cqe)
    (h_users : e.nla_line RDMA_NLDEV_ATTR_RES_USECNT = some a_users)
    (h_owner : e.nla_line RDMA_NLDEV_ATTR_RES_PID ≠ none ∨
      e.nla_line RDMA_NLDEV_ATTR_RES_KERN_NAME ≠ none) :
    (res_cq_line r x name idx e w).1 = MNL_CB_OK ∧
    ((res_cq_line r x name idx e w).2.out ≠ w.out ↔
      (rd_check_is_filtered r "users" (mnl_attr_get_u64 a_users) = false ∧
        rd_check_is_filtered r "pid"
          (assigned_u32 0 (e.nla_line RDMA_NLDEV_ATTR_RES_PID)) = false ∧
        rd_check_is_filtered r "cqn"
          (assigned_u32 0 (e.nla_line RDMA_NLDEV_ATTR_RES_CQN)) = false ∧
        rd_check_is_filtered r "ctxn"
          (assigned_u32 0 (e.nla_line RDMA_NLDEV_ATTR_RES_CTXN)) = false ∧
        (∀ a_poll, e.nla_line RDMA_NLDEV_ATTR_RES_POLL_CTX = some a_poll →
          rd_check_is_string_filtered r "poll-ctx"
            (poll_ctx_to_str (mnl_attr_get_u8 a_poll)) = false))) ∧
    (e.nla_line RDMA_NLDEV_ATTR_RES_POLL_CTX = none →
      ∀ g : String → String → Bool,
        res_cq_line { r with check_is_string_filtered := g } x name idx e w =
          res_cq_line r x name idx e w) := by
  refine ⟨res_cq_line_returns_ok r x name idx e w a_cqe a_users h_parse h_cqe h_users h_owner,
    ?_, ?_⟩
  · rw [res_cq_line_rendered_iff]
    have c0 := owner_present e h_owner
    simp only [Bool.not_eq_true] at c0
    have hu2 : assigned_u64 0 (some a_users) = mnl_attr_get_u64 a_users := rfl
    simp only [res_cq_checks, h_parse, h_cqe, h_users, hu2, c0, Option.isSome_some, decide_True,
      Bool.not_false, Bool.true_and, Bool.and_eq_true, Bool.not_eq_true', Bool.and_eq_false_imp]
    constructor
    · rintro ⟨⟨⟨⟨f1, f2⟩, f3⟩, f4⟩, f5⟩
      refine ⟨f1, f3, f4, f5, ?_⟩
      intro a_poll h_poll
      rw [h_poll] at f2
      exact f2 rfl
    · rintro ⟨f1, f3, f4, f5, f2⟩
      refine ⟨⟨⟨⟨f1, ?_⟩, f3⟩, f4⟩, f5⟩
      intro h_some
      cases h_poll : e.nla_line RDMA_NLDEV_ATTR_RES_POLL_CTX with
      | none => rw [h_poll] at h_some; cases h_some
      | some a_poll => exact f2 a_poll h_poll
  · intro h_poll g
    simp only [res_cq_line, h_parse, h_cqe, h_users, h_poll, rd_check_is_filtered,
      Option.isSome_none, Bool.false_and, print_poll_ctx, Option.isNone_none, if_true]

/-- C18, at concrete queries: under the filter `pid 1234` the entry of process 1234 is
rendered and the kernel-owned entry, whose pid is taken as 0, is not; both runs return
MNL_CB_OK. -/
theorem res_cq_line_acceptance_witness :
    ((res_cq_line rd_pid_1234 sample_ext "mlx5_0" 0 cq_entry_c World.start).1 = MNL_CB_OK ∧
      (res_cq_line rd_pid_1234 sample_ext "mlx5_0" 0 cq_entry_c World.start).2.out ≠
        World.start.out) ∧
    ((res_cq_line rd_pid_1234 sample_ext "mlx5_0" 0 cq_entry_kernel World.start).1 =
        MNL_CB_OK ∧
      ¬(res_cq_line rd_pid_1234 sample_ext "mlx5_0" 0 cq_entry_kernel World.start).2.out ≠
        World.start.out) := by
  have h1 := res_cq_line_acceptance rd_pid_1234 sample_ext "mlx5_0" 0 cq_entry_c World.start
    ⟨[0, 1, 0, 0]⟩ ⟨[2, 0, 0, 0, 0, 0, 0, 0]⟩ rfl rfl rfl (Or.inl (by decide))
  have h2 := res_cq_line_acceptance rd_pid_1234 sample_ext "mlx5_0" 0 cq_entry_kernel
    World.start ⟨[0, 1, 0, 0]⟩ ⟨[2, 0, 0, 0, 0, 0, 0, 0]⟩ rfl rfl rfl (Or.inr (by decide))
  refine ⟨⟨h1.1, h1.2.1.2 ⟨rfl, rfl, rfl, rfl, ?_⟩⟩, h2.1, ?_⟩
  · intro a_poll h_poll
    rfl
  · intro h
    have h3 := (h2.2.1.1 h).2.1
    revert h3
    decide

/-! ## Claims about print_ipaddr and the filter tables -/

theorem snprintf_fits (size : Nat) (text : String) (h : text.length < size) :
    snprintf size text = text := by
  unfold snprintf
  have h2 : text.data.length ≤ size - 1 := by
    have h3 : text.data.length = text.length := rfl
    omega
  rw [List.take_of_length_le h2]

theorem toString_port_length (port : Nat) (h : port < 65536) : (toString port).length ≤ 5 :=
  Nat.repr_length port 5 (by decide) (by omega)

/-- C19: print_ipaddr never truncates in JSON mode. For an address text of at most
INET6_ADDRSTRLEN - 1 = 45 characters and a 16-bit port, the JSON field value built in the
buffer of INET6_ADDRSTRLEN + 6 bytes is exactly `addr:port` with the port in decimal, the
text that text mode prints between the key with its blank and the closing blank. -/
theorem print_ipaddr_json_is_exact (r : rd) (key addrstr : String) (port : Nat) (w : World)
    (h_addr : addrstr.length ≤ INET6_ADDRSTRLEN - 1) (h_port : port < 65536) :
    INET6_ADDRSTRLEN - 1 = 45 ∧
    (r.json_output = true →
      print_ipaddr r key addrstr port w =
        jsonw_string_field key (addrstr ++ ":" ++ toString port) w) ∧
    (r.json_output = false →
      print_ipaddr r key addrstr port w =
        pr_out (key ++ " " ++ (addrstr ++ ":" ++ toString port) ++ " ") w) := by
  refine ⟨rfl, fun hj => ?_, fun hj => ?_⟩
  · have h5 := toString_port_length port h_port
    have hc : ":".length = 1 := rfl
    have h6 : ":65535".length = 6 := rfl
    have hfit : (addrstr ++ ":" ++ toString port).length <
        INET6_ADDRSTRLEN + ":65535".length := by
      simp only [String.length_append, hc, h6, INET6_ADDRSTRLEN] at h_addr ⊢
      omega
    simp only [print_ipaddr, hj, if_true, snprintf_fits _ _ hfit]
  · simp only [print_ipaddr, hj, Bool.false_eq_true, if_false, String.append_assoc]

/-- C19, at a concrete address: the longest IPv4-mapped IPv6 text (45 characters) with port
65535 is written to the JSON field in full; a buffer one byte shorter would cut it. -/
theorem print_ipaddr_json_is_exact_witness :
    print_ipaddr { rd_plain with json_output := true } "src-addr"
        "ffff:ffff:ffff:ffff:ffff:ffff:255.255.255.255" 65535 World.start =
      jsonw_string_field "src-addr"
        ("ffff:ffff:ffff:ffff:ffff:ffff:255.255.255.255" ++ ":" ++ toString 65535)
        World.start ∧
    snprintf (INET6_ADDRSTRLEN + ":65535".length - 1)
        ("ffff:ffff:ffff:ffff:ffff:ffff:255.255.255.255" ++ ":" ++ toString 65535) ≠
      "ffff:ffff:ffff:ffff:ffff:ffff:255.255.255.255" ++ ":" ++ toString 65535 :=
  ⟨(print_ipaddr_json_is_exact { rd_plain with json_output := true } "src-addr"
      "ffff:ffff:ffff:ffff:ffff:ffff:255.255.255.255" 65535 World.start (by decide)
      (by decide)).2.1 rfl, by decide⟩

/-- The numeric filter names that res_cq_line hands to rd_check_is_filtered and the string
filter names it hands to rd_check_is_string_filtered appear in no other form: two queries
that agree on the output mode and on these filters give the same run. -/
theorem res_cq_line_filter_names (r r2 : rd) (x : Ext) (name : String) (idx : Nat)
    (e : nla_entry) (w : World) (h_json : r2.json_output = r.json_output)
    (h_num : ∀ key ∈ ["users", "pid", "cqn", "ctxn"], ∀ v,
      r2.check_is_filtered key v = r.check_is_filtered key v)
    (h_str : ∀ key ∈ ["poll-ctx"], ∀ v,
      r2.check_is_string_filtered key v = r.check_is_string_filtered key v) :
    res_cq_line r2 x name idx e w = res_cq_line r x name idx e w := by
  have n1 := h_num "users" (by simp)
  have n2 := h_num "pid" (by simp)
  have n3 := h_num "cqn" (by simp)
  have n4 := h_num "ctxn" (by simp)
  have s1 := h_str "poll-ctx" (by simp)
  simp only [res_cq_line, rd_check_is_filtered, rd_check_is_string_filtered, print_poll_ctx,
    h_json, n1, n2, n3, n4, s1]

/-- The filter names that res_cm_id_line consults: two queries that agree on the output mode,
the target port and these filters give the same run. -/
theorem res_cm_id_line_filter_names (r r2 : rd) (x : Ext) (name : String) (idx : Nat)
    (e : nla_entry) (w : World) (h_json : r2.json_output = r.json_output)
    (h_port : r2.port_idx = r.port_idx)
    (h_num : ∀ key ∈ ["lqpn", "src-port", "dst-port", "pid", "cm-idn"], ∀ v,
      r2.check_is_filtered key v = r.check_is_filtered key v)
    (h_str : ∀ key ∈ ["qp-type", "ps", "state", "src-addr", "dst-addr"], ∀ v,
      r2.check_is_string_filtered key v = r.check_is_string_filtered key v) :
    res_cm_id_line r2 x name idx e w = res_cm_id_line r x name idx e w := by
  have n1 := h_num "lqpn" (by simp)
  have n2 := h_num "src-port" (by simp)
  have n3 := h_num "dst-port" (by simp)
  have n4 := h_num "pid" (by simp)
  have n5 := h_num "cm-idn" (by simp)
  have s1 := h_str "qp-type" (by simp)
  have s2 := h_str "ps" (by simp)
  have s3 := h_str "state" (by simp)
  have s4 := h_str "src-addr" (by simp)
  have s5 := h_str "dst-addr" (by simp)
  have ha : ∀ a, res_cm_id_addr r2 x "src-addr" "src-port" a =
      res_cm_id_addr r x "src-addr" "src-port" a := by
    intro a
    simp only [res_cm_id_addr, rd_check_is_filtered, rd_check_is_string_filtered, n2, s4]
  have hb : ∀ a, res_cm_id_addr r2 x "dst-addr" "dst-port" a =
      res_cm_id_addr r x "dst-addr" "dst-port" a := by
    intro a
    simp only [res_cm_id_addr, rd_check_is_filtered, rd_check_is_string_filtered, n3, s5]
  have hc : ∀ key a v, res_cm_id_print_addr r2 key a v = res_cm_id_print_addr r key a v := by
    intro key a v
    simp only [res_cm_id_print_addr, print_ipaddr, h_json]
  have hq : ∀ t, print_qp_type r2 x t = print_qp_type r x t := by
    intro t
    funext v
    simp only [print_qp_type, h_json]
  simp only [res_cm_id_line, rd_check_is_filtered, rd_check_is_string_filtered, hq,
    print_cm_id_state, print_ps, ha, hb, hc, h_json, h_port, n1, n4, n5, s1, s2, s3]

/-- C20, the tables as they stand: every filter name that res_cq_line consults is a row of
cq_valid_filters and every name that res_cm_id_line consults is a row of
cm_id_valid_filters, with the value kind by which it is consulted; the names within
mr_valid_filters, cq_valid_filters, cm_id_valid_filters and qp_valid_filters are pairwise
distinct; the names within pd_valid_filters are not: rows 4 and 6 both name "ctxn". -/
theorem valid_filter_tables :
    (∀ key ∈ ["users", "pid", "cqn", "ctxn"],
      ({ name := key, is_number := true } : filters) ∈ cq_valid_filters) ∧
    (∀ key ∈ ["poll-ctx"],
      ({ name := key, is_number := false } : filters) ∈ cq_valid_filters) ∧
    (∀ key ∈ ["lqpn", "src-port", "dst-port", "pid", "cm-idn"],
      ({ name := key, is_number := true } : filters) ∈ cm_id_valid_filters) ∧
    (∀ key ∈ ["qp-type", "ps", "state", "src-addr", "dst-addr"],
      ({ name := key, is_number := false } : filters) ∈ cm_id_valid_filters) ∧
    (mr_valid_filters.map filters.name).Nodup ∧
    (cq_valid_filters.map filters.name).Nodup ∧
    (cm_id_valid_filters.map filters.name).Nodup ∧
    (qp_valid_filters.map filters.name).Nodup ∧
    ¬(pd_valid_filters.map filters.name).Nodup ∧
    pd_valid_filters.get? 3 = some { name := "ctxn", is_number := true } ∧
    pd_valid_filters.get? 5 = some { name := "ctxn", is_number := true } := by
  decide

end Rdma
